import Mathlib

/-!
Verification of the GW2-Reshade D3D11 effect compiler and SPIR-V code
generator (`src/source/d3d11/d3d11_effect_compiler.cpp`).

The development shallowly embeds the pieces of the source that the checked
properties talk about: the std140-style uniform layout of the SPIR-V
backend's `define_uniform`, the sampler-descriptor hashing and interning of
`d3d11_effect_compiler::visit_sampler`, the texture / technique resource
builders, the SPIR-V word serializer, and the constant interning of
`codegen_spirv::emit_constant`.  Machine integers are modelled as `Nat`
with explicit reduction modulo `2 ^ w` wherever the C computation can
wrap.  COM objects (textures, views, sampler states) are modelled as ids
allocated from a monotone counter; a shader-resource or render-target view
carries the id of its underlying resource.
-/

namespace GW2RS

/-! ## Byte/word helpers -/

/-- Little-endian byte serialization of a 32-bit field, as it sits in
memory inside `D3D11_SAMPLER_DESC` (four bytes per field). -/
def le32 (n : Nat) : List Nat :=
  [n % 256, n / 256 % 256, n / 65536 % 256, n / 16777216 % 256]

/-- `HRESULT` is a signed 32-bit integer; `FAILED(hr)` is `hr < 0`. -/
def hr_failed (hr : Int) : Bool := hr < 0

/-- The `static_cast<unsigned long>(hr)` used when stringifying an
`HRESULT` into an error message (unsigned 32-bit reinterpretation). -/
def to_ulong (hr : Int) : Nat := (hr % (2 : Int) ^ 32).toNat

/-! ## C1: std140-style uniform layout of `codegen_spirv::define_uniform` -/

/-- `align` from the source (line 784):
`(address % alignment != 0) ? address + alignment - address % alignment : address`.
The C computation is on `uint32_t`; offsets stay far below `2 ^ 32` here so
plain `Nat` arithmetic coincides with it. -/
def align (address alignment : Nat) : Nat :=
  if address % alignment != 0 then address + alignment - address % alignment
  else address

/-- The value type of the effect IR (`reshadefx::type`).  The defining
header is not part of the repository; the fields and their meaning follow
the spec's data model (base tag, row count, column count, array length with
0 = not an array and -1 = unsized, struct definition id, pointer flag).
Structural equality on these fields models the C++ `operator==` used by the
interning lookups. -/
structure Ty where
  base : Nat
  rows : Nat
  cols : Nat
  array_length : Int
  definition : Nat
  is_ptr : Bool
deriving DecidableEq, Repr

/-- Base-type tags used by the embedded fragments (values are irrelevant,
only distinctness matters). -/
def t_void : Nat := 0
def t_bool : Nat := 1
def t_int : Nat := 2
def t_uint : Nat := 3
def t_float : Nat := 4
def t_struct : Nat := 5
def t_texture : Nat := 6
def t_sampler : Nat := 7
def t_string : Nat := 8

/-- Uniform size rule of `define_uniform` (line 1301):
`4 * (rows == 3 ? 4 : rows) * cols * max(1, array_length)`. -/
def uniform_size (t : Ty) : Nat :=
  4 * (if t.rows == 3 then 4 else t.rows) * t.cols * (max 1 t.array_length).toNat

/-- One `define_uniform` step on the running `_global_ubo_offset`
(lines 1301-1305): the member offset is `align(current, size)` and the
running offset then becomes `offset + size`. -/
def define_uniform_step (cur : Nat) (t : Ty) : Nat × Nat :=
  let size := uniform_size t
  let offset := align cur size
  (offset, offset + size)

/-- Offsets assigned by a sequence of `define_uniform` calls starting from
a fresh generator (`_global_ubo_offset = 0`), together with the final
running offset. -/
def define_uniform_offsets (ts : List Ty) : List Nat × Nat :=
  ts.foldl
    (fun acc t =>
      let r := define_uniform_step acc.2 t
      (acc.1 ++ [r.1], r.2))
    ([], 0)

/-- The scalar `float` type. -/
def floatTy : Ty :=
  { base := t_float, rows := 1, cols := 1, array_length := 0, definition := 0, is_ptr := false }

/-- The `float3` vector type. -/
def float3Ty : Ty :=
  { base := t_float, rows := 3, cols := 1, array_length := 0, definition := 0, is_ptr := false }

/-! ## C2: sampler descriptor hashing in `visit_sampler` -/

/-- The sampler description the frontend hands to `visit_sampler`.  The
`lod` fields hold the 32-bit IEEE bit patterns of the `float` desc fields
(the hash only ever sees their raw bytes). -/
structure SamplerInfo where
  texture_name : String
  filter : Nat
  address_u : Nat
  address_v : Nat
  address_w : Nat
  lod_bias : Nat
  min_lod : Nat
  max_lod : Nat
  srgb : Bool
  binding : Nat
deriving DecidableEq, Repr

/-- The raw 52-byte memory image of the `D3D11_SAMPLER_DESC` filled by
`visit_sampler` (lines 389-398): `Filter`, `AddressU/V/W`, `MipLODBias`,
`MaxAnisotropy = 1`, `ComparisonFunc = D3D11_COMPARISON_NEVER = 1`,
`BorderColor = {0,0,0,0}` (zero-initialized, never assigned), `MinLOD`,
`MaxLOD`, each serialized little-endian. -/
def sampler_desc_bytes (s : SamplerInfo) : List Nat :=
  le32 s.filter ++ le32 s.address_u ++ le32 s.address_v ++ le32 s.address_w ++
  le32 s.lod_bias ++ le32 1 ++ le32 1 ++
  le32 0 ++ le32 0 ++ le32 0 ++ le32 0 ++
  le32 s.min_lod ++ le32 s.max_lod

/-- The hash loop of `visit_sampler` (lines 400-402):
`desc_hash = (desc_hash * 16777619) ^ byte`, accumulated in `size_t`
(64-bit on the x64 build), seeded with `2166136261`.  Note the order:
the byte is XORed in after the multiplication. -/
def desc_hash (bytes : List Nat) : Nat :=
  bytes.foldl (fun h b => h * 16777619 % 2 ^ 64 ^^^ b) 2166136261

/-- Modelled from the spec: the FNV-1a 32-bit hash the spec claims is used
("for each byte, XOR the byte into the hash and then multiply by the prime
16777619", 32-bit state, seed 2166136261). -/
def fnv1a32 (bytes : List Nat) : Nat :=
  bytes.foldl (fun h b => (h ^^^ b) * 16777619 % 2 ^ 32) 2166136261

/-! ## C8: `spirv_instruction::add_string` word packing -/

/-- Little-endian packing of up to four bytes into one 32-bit word, as the
inner `for` loop of `add_string` builds it (missing bytes stay 0). -/
def le_word (chunk : List Nat) : Nat :=
  match chunk with
  | [] => 0
  | [a] => a
  | [a, b] => a + 256 * b
  | [a, b, c] => a + 256 * b + 65536 * c
  | a :: b :: c :: d :: _ => a + 256 * b + 65536 * c + 16777216 * d

/-- The `do { ... } while (*string || word & 0xFF000000)` loop of
`add_string` (lines 732-742), on the list of the string's content bytes
(everything before the terminating NUL).  Each iteration packs up to four
bytes little-endian into a word and appends it; the loop continues while
input remains or the last word's top byte is non-zero.  When at most four
bytes remain, the loop body runs once more on empty input (appending a
zero word) exactly when the packed word's top byte is non-zero, which is
the second pattern below. -/
def add_string_words : List Nat → List Nat
  | a :: b :: c :: d :: e :: rest => le_word [a, b, c, d] :: add_string_words (e :: rest)
  | chunk =>
    let word := le_word chunk
    if word &&& 0xFF000000 ≠ 0 then [word, 0] else [word]

/-! ## The D3D11 effect linker: data model

COM objects created on the device are modelled as ids drawn from a
monotone counter in the runtime.  A shader-resource or render-target view
is identified by the id of its underlying resource (what
`ID3D11View::GetResource` returns); `srv.reset()` / a null `com_ptr` is
`Option.none`. -/

/-- `reshadefx::texture_format` (the effect IR texture format enum). -/
inductive TexFormat
  | r8 | r16f | r32f | rg8 | rg16 | rg16f | rg32f
  | rgba8 | rgba16 | rgba16f | rgba32f
  | dxt1 | dxt3 | dxt5 | latc1 | latc2 | unknown
deriving DecidableEq, Repr

/-- The DXGI formats reachable from `literal_to_format`,
`make_format_srgb` and `make_format_normal`. -/
inductive DXGIFormat
  | r8_unorm | r16_float | r32_float | r8g8_unorm
  | r16g16_unorm | r16g16_float | r32g32_float
  | r8g8b8a8_typeless | r8g8b8a8_unorm | r8g8b8a8_unorm_srgb
  | r16g16b16a16_unorm | r16g16b16a16_float | r32g32b32a32_float
  | bc1_typeless | bc1_unorm | bc1_unorm_srgb
  | bc2_typeless | bc2_unorm | bc2_unorm_srgb
  | bc3_typeless | bc3_unorm | bc3_unorm_srgb
  | bc4_unorm | bc5_unorm | unknown
deriving DecidableEq, Repr

/-- `literal_to_format` (source lines 73-112). -/
def literal_to_format : TexFormat → DXGIFormat
  | .r8 => .r8_unorm
  | .r16f => .r16_float
  | .r32f => .r32_float
  | .rg8 => .r8g8_unorm
  | .rg16 => .r16g16_unorm
  | .rg16f => .r16g16_float
  | .rg32f => .r32g32_float
  | .rgba8 => .r8g8b8a8_typeless
  | .rgba16 => .r16g16b16a16_unorm
  | .rgba16f => .r16g16b16a16_float
  | .rgba32f => .r32g32b32a32_float
  | .dxt1 => .bc1_typeless
  | .dxt3 => .bc2_typeless
  | .dxt5 => .bc3_typeless
  | .latc1 => .bc4_unorm
  | .latc2 => .bc5_unorm
  | .unknown => .unknown

/-- `make_format_srgb` (source lines 114-133). -/
def make_format_srgb : DXGIFormat → DXGIFormat
  | .r8g8b8a8_typeless => .r8g8b8a8_unorm_srgb
  | .r8g8b8a8_unorm => .r8g8b8a8_unorm_srgb
  | .bc1_typeless => .bc1_unorm_srgb
  | .bc1_unorm => .bc1_unorm_srgb
  | .bc2_typeless => .bc2_unorm_srgb
  | .bc2_unorm => .bc2_unorm_srgb
  | .bc3_typeless => .bc3_unorm_srgb
  | .bc3_unorm => .bc3_unorm_srgb
  | f => f

/-- `make_format_normal` (source lines 134-153). -/
def make_format_normal : DXGIFormat → DXGIFormat
  | .r8g8b8a8_typeless => .r8g8b8a8_unorm
  | .r8g8b8a8_unorm_srgb => .r8g8b8a8_unorm
  | .bc1_typeless => .bc1_unorm
  | .bc1_unorm_srgb => .bc1_unorm
  | .bc2_typeless => .bc2_unorm
  | .bc2_unorm_srgb => .bc2_unorm
  | .bc3_typeless => .bc3_unorm
  | .bc3_unorm_srgb => .bc3_unorm
  | f => f

/-- A device view (SRV or RTV); `resource` is the id of the resource the
view was created on. -/
structure View where
  resource : Nat
deriving DecidableEq, Repr

/-- `d3d11_tex_data`: the per-texture device objects.  `texture` is the
underlying `ID3D11Texture2D` (none for the backbuffer/depth semantic
textures, which borrow runtime views instead). -/
structure TexData where
  texture : Option Nat
  srv0 : Option View
  srv1 : Option View
  rtv0 : Option View
  rtv1 : Option View
deriving DecidableEq, Repr

/-- `srv[i]` indexing. -/
def TexData.srv (d : TexData) (i : Nat) : Option View :=
  if i == 0 then d.srv0 else d.srv1

/-- `rtv[i]` indexing. -/
def TexData.rtv (d : TexData) (i : Nat) : Option View :=
  if i == 0 then d.rtv0 else d.rtv1

/-- `rtv[i] = v` assignment. -/
def TexData.setRtv (d : TexData) (i : Nat) (v : Option View) : TexData :=
  if i == 0 then { d with rtv0 := v } else { d with rtv1 := v }

/-- A texture registered in the runtime's registry (`reshade::texture`
restricted to the fields the compiler reads). -/
structure Texture where
  unique_name : String
  effect_filename : String
  width : Nat
  height : Nat
  levels : Nat
  format : TexFormat
  impl : TexData
deriving DecidableEq, Repr

/-- The runtime state the compiler touches.  `find_texture`, the
sampler-state cache and the backbuffer/depth views live in
`d3d11_runtime`, which is not part of the repository; they are modelled
from the spec ("the texture registry (keyed by unique name), the
sampler-state cache (keyed by descriptor hash)").  `next_obj` allocates
ids for device objects created during linking. -/
structure Runtime where
  textures : List Texture
  sampler_states : List (Nat × Nat)
  frame_width : Nat
  frame_height : Nat
  backbuffer_rtv0 : View
  backbuffer_rtv1 : View
  backbuffer_srv0 : View
  backbuffer_srv1 : View
  depthstencil_srv : View
  next_obj : Nat
deriving DecidableEq, Repr

/-- `_backbuffer_rtv[i]`. -/
def Runtime.backbuffer_rtv (rt : Runtime) (i : Nat) : View :=
  if i == 0 then rt.backbuffer_rtv0 else rt.backbuffer_rtv1

/-- `_backbuffer_texture_srv[i]`. -/
def Runtime.backbuffer_srv (rt : Runtime) (i : Nat) : View :=
  if i == 0 then rt.backbuffer_srv0 else rt.backbuffer_srv1

/-- `runtime::find_texture(name)`: registry lookup by unique name. -/
def Runtime.find_texture (rt : Runtime) (name : String) : Option Texture :=
  rt.textures.find? (fun t => t.unique_name == name)

/-- `runtime::add_texture`: append to the registry. -/
def Runtime.add_texture (rt : Runtime) (t : Texture) : Runtime :=
  { rt with textures := rt.textures ++ [t] }

/-- In-place mutation of a registered texture's device objects (the C++
mutates through a shared pointer into the registry). -/
def Runtime.update_texture (rt : Runtime) (name : String) (f : TexData → TexData) : Runtime :=
  { rt with
    textures := rt.textures.map fun t =>
      if t.unique_name == name then { t with impl := f t.impl } else t }

/-- The compiler's `_success` flag and accumulating `_errors` string. -/
structure CompilerState where
  success : Bool
  errors : String
deriving DecidableEq, Repr

/-- `d3d11_effect_compiler::error` (lines 265-270). -/
def cerror (st : CompilerState) (message : String) : CompilerState :=
  { success := false, errors := st.errors ++ "error: " ++ message ++ "\n" }

/-- `d3d11_effect_compiler::warning` (lines 271-274). -/
def cwarning (st : CompilerState) (message : String) : CompilerState :=
  { st with errors := st.errors ++ "warning: " ++ message ++ "\n" }

/-! ## C3/C4: `d3d11_effect_compiler::visit_texture` -/

/-- The fields of `reshadefx::texture_info` the compiler reads (the
`format` field already carries the `texture_format` cast applied on
line 286/298). -/
structure TextureInfo where
  unique_name : String
  semantic : String
  width : Nat
  height : Nat
  levels : Nat
  format : TexFormat
deriving DecidableEq, Repr

/-- The `HRESULT`s the device returns for the (up to three) creation
calls `visit_texture` can issue. -/
structure TexHr where
  createTexture2D : Int
  createSRV0 : Int
  createSRV1 : Int
deriving DecidableEq, Repr

/-- `d3d11_effect_compiler::visit_texture` (lines 276-380).  Returns the
updated runtime and compiler state. -/
def visit_texture (rt : Runtime) (st : CompilerState) (info : TextureInfo)
    (hr : TexHr) : Runtime × CompilerState :=
  match rt.find_texture info.unique_name with
  | some existing =>
    if info.semantic == "" &&
       (existing.width != info.width || existing.height != info.height ||
        existing.levels != info.levels || existing.format != info.format) then
      (rt, cerror st (existing.effect_filename ++ " already created a texture with the same name but different dimensions; textures are shared across all effects, so either rename the variable or adjust the dimensions so they match"))
    else
      (rt, st)
  | none =>
    let base : Texture :=
      { unique_name := info.unique_name
        effect_filename := ""
        width := info.width, height := info.height
        levels := info.levels, format := info.format
        impl := { texture := none, srv0 := none, srv1 := none, rtv0 := none, rtv1 := none } }
    if info.semantic == "COLOR" then
      (rt.add_texture
        { base with
          width := rt.frame_width, height := rt.frame_height
          impl := { base.impl with
                    srv0 := some rt.backbuffer_srv0
                    srv1 := some rt.backbuffer_srv1 } }, st)
    else if info.semantic == "DEPTH" then
      (rt.add_texture
        { base with
          width := rt.frame_width, height := rt.frame_height
          impl := { base.impl with
                    srv0 := some rt.depthstencil_srv
                    srv1 := some rt.depthstencil_srv } }, st)
    else if info.semantic != "" then
      (rt, cerror st "invalid semantic")
    else
      if hr_failed hr.createTexture2D then
        (rt, cerror st ("'ID3D11Device::CreateTexture2D' failed with error code " ++ toString (to_ulong hr.createTexture2D) ++ "!"))
      else
        let texres := rt.next_obj
        let rt := { rt with next_obj := rt.next_obj + 1 }
        if hr_failed hr.createSRV0 then
          (rt, cerror st ("'ID3D11Device::CreateShaderResourceView' failed with error code " ++ toString (to_ulong hr.createSRV0) ++ "!"))
        else
          let texdesc_format := literal_to_format info.format
          let srv0 : View := { resource := texres }
          if make_format_srgb texdesc_format != texdesc_format then
            if hr_failed hr.createSRV1 then
              (rt, cerror st ("'ID3D11Device::CreateShaderResourceView' failed with error code " ++ toString (to_ulong hr.createSRV1) ++ "!"))
            else
              (rt.add_texture
                { base with impl := { base.impl with
                    texture := some texres, srv0 := some srv0, srv1 := some srv0 } }, st)
          else
            (rt.add_texture
              { base with impl := { base.impl with
                  texture := some texres, srv0 := some srv0, srv1 := some srv0 } }, st)

/-! ## C2/C3/C9: `d3d11_effect_compiler::visit_sampler` -/

/-- The compiler's `_sampler_bindings` / `_texture_bindings` slot lists
(a sampler binding holds the id of an `ID3D11SamplerState`). -/
structure Bindings where
  sampler_bindings : List (Option Nat)
  texture_bindings : List (Option View)
deriving DecidableEq, Repr

/-- `std::vector::resize(max(size, n))`: grow with null entries, never
shrink. -/
def resize_bindings {α : Type} (l : List (Option α)) (n : Nat) : List (Option α) :=
  l ++ List.replicate (max l.length n - l.length) none

/-- `d3d11_effect_compiler::visit_sampler` (lines 382-426).
`hrCreateSamplerState` is the `HRESULT` `CreateSamplerState` would return
if the descriptor hash misses the runtime's cache. -/
def visit_sampler (rt : Runtime) (st : CompilerState) (b : Bindings)
    (info : SamplerInfo) (hrCreateSamplerState : Int) :
    Runtime × CompilerState × Bindings :=
  match rt.find_texture info.texture_name with
  | none => (rt, st, b)
  | some existing =>
    let h := desc_hash (sampler_desc_bytes info)
    let bind := fun (rt : Runtime) (sid : Nat) =>
      let sb := (resize_bindings b.sampler_bindings (info.binding + 1)).set info.binding (some sid)
      let tb := (resize_bindings b.texture_bindings (info.binding + 1)).set info.binding
                  (existing.impl.srv (if info.srgb then 1 else 0))
      (rt, st, { sampler_bindings := sb, texture_bindings := tb : Bindings })
    match rt.sampler_states.find? (fun p => p.1 == h) with
    | some p => bind rt p.2
    | none =>
      if hr_failed hrCreateSamplerState then
        (rt, cerror st ("'ID3D11Device::CreateSamplerState' failed with error code " ++ toString (to_ulong hrCreateSamplerState) ++ "!"), b)
      else
        let sid := rt.next_obj
        bind { rt with
               sampler_states := rt.sampler_states ++ [(h, sid)]
               next_obj := rt.next_obj + 1 } sid

/-! ## C3/C5/C10: `d3d11_effect_compiler::visit_technique` -/

/-- The fields of `reshadefx::pass_info` that drive the modelled control
flow (the blend/stencil literals only parametrize the contents of the
created state objects and are elided). -/
structure PassInfo where
  render_target_names : List String
  srgb_write_enable : Bool
  clear_render_targets : Bool
deriving DecidableEq, Repr

/-- `d3d11_pass_data` restricted to the modelled fields.  The two
render-target arrays have eight slots. -/
structure Pass where
  shader_resources : List (Option View)
  render_targets : List (Option View)
  render_target_resources : List (Option View)
  viewport_width : Nat
  viewport_height : Nat
  clear_render_targets : Bool
deriving DecidableEq, Repr

/-- The final loop of the pass setup (lines 609-631): every
shader-resource view whose underlying resource equals the resource of
some non-null render target of the same pass is reset to null. -/
def null_hazards (srvs rts : List (Option View)) : List (Option View) :=
  srvs.map fun srv =>
    match srv with
    | none => none
    | some v => if rts.any (fun r => match r with
                  | some q => q.resource == v.resource
                  | none => false)
                then none else some v

/-- The render-target binding loop of the pass setup (lines 515-562),
iterating over the remaining slot indices (invoked with
`List.range 8`, i.e. `k = 0..7`).  `hrRtv k` is the `HRESULT`
`CreateRenderTargetView` would return for slot `k`.  The runtime is
returned in every case because render-target views created before an
error are cached on the shared texture objects.  `none` in the third
component means `visit_technique` returned early via `error()`. -/
def bind_rts (info : PassInfo) (hrRtv : Nat → Int) :
    List Nat → Runtime → CompilerState → Pass →
    Runtime × CompilerState × Option Pass
  | [], rt, st, pass => (rt, st, some pass)
  | k :: ks, rt, st, pass =>
    let name := info.render_target_names.getD k ""
    if name == "" then
      bind_rts info hrRtv ks rt st pass
    else
      match rt.find_texture name with
      | none => (rt, cerror st "texture not found", none)
      | some tex =>
        if pass.viewport_width != 0 && pass.viewport_height != 0 &&
           (tex.width != pass.viewport_width || tex.height != pass.viewport_height) then
          (rt, cerror st "cannot use multiple rendertargets with different sized textures", none)
        else
          let pass := { pass with viewport_width := tex.width, viewport_height := tex.height }
          let ti := if info.srgb_write_enable then 1 else 0
          let rtst :=
            if tex.impl.rtv ti == none then
              if hr_failed (hrRtv k) then
                (rt, cwarning st ("'ID3D11Device::CreateRenderTargetView' failed with error code " ++ toString (to_ulong (hrRtv k)) ++ "!"))
              else
                (rt.update_texture name
                  (fun d => d.setRtv ti (some { resource := d.texture.getD 0 })), st)
            else (rt, st)
          let rt := rtst.1
          let st := rtst.2
          let tex2 := (rt.find_texture name).getD tex
          let pass := { pass with
            render_targets := pass.render_targets.set k (tex2.impl.rtv ti)
            render_target_resources := pass.render_target_resources.set k (tex2.impl.srv ti) }
          bind_rts info hrRtv ks rt st pass

/-- One iteration of the pass loop of `visit_technique` (lines 497-632):
initialize the pass from the current texture bindings and the backbuffer
default in slot 0, run the render-target loop, apply the viewport
fallback, create the depth-stencil and blend states (failures are
warnings), and null out read/write hazards.  `none` means the technique
was abandoned via `error()`. -/
def build_pass (rt : Runtime) (st : CompilerState) (texture_bindings : List (Option View))
    (info : PassInfo) (hrRtv : Nat → Int) (hrDss hrBlend : Int) :
    Runtime × CompilerState × Option Pass :=
  let ti := if info.srgb_write_enable then 1 else 0
  let pass0 : Pass :=
    { shader_resources := texture_bindings
      render_targets := (List.replicate 8 (none : Option View)).set 0 (some (rt.backbuffer_rtv ti))
      render_target_resources := (List.replicate 8 (none : Option View)).set 0 (some (rt.backbuffer_srv ti))
      viewport_width := 0, viewport_height := 0
      clear_render_targets := info.clear_render_targets }
  match bind_rts info hrRtv (List.range 8) rt st pass0 with
  | (rt, st, none) => (rt, st, none)
  | (rt, st, some pass) =>
    let pass :=
      if pass.viewport_width == 0 && pass.viewport_height == 0 then
        { pass with viewport_width := rt.frame_width, viewport_height := rt.frame_height }
      else pass
    let st :=
      if hr_failed hrDss then
        cwarning st ("'ID3D11Device::CreateDepthStencilState' failed with error code " ++ toString (to_ulong hrDss) ++ "!")
      else st
    let st :=
      if hr_failed hrBlend then
        cwarning st ("'ID3D11Device::CreateBlendState' failed with error code " ++ toString (to_ulong hrBlend) ++ "!")
      else st
    let pass := { pass with
      shader_resources := null_hazards pass.shader_resources pass.render_targets }
    (rt, st, some pass)

/-- The pass loop of `visit_technique`, indexed so the `HRESULT` oracles
can distinguish passes.  An `error()` in any pass abandons the whole
technique (early `return`), but runtime mutations made so far persist. -/
def build_passes (texture_bindings : List (Option View))
    (hrRtv : Nat → Nat → Int) (hrDss hrBlend : Nat → Int) :
    List PassInfo → Nat → Runtime → CompilerState →
    Runtime × CompilerState × Option (List Pass)
  | [], _, rt, st => (rt, st, some [])
  | info :: rest, i, rt, st =>
    match build_pass rt st texture_bindings info (hrRtv i) (hrDss i) (hrBlend i) with
    | (rt, st, none) => (rt, st, none)
    | (rt, st, some pass) =>
      match build_passes texture_bindings hrRtv hrDss hrBlend rest (i + 1) rt st with
      | (rt, st, none) => (rt, st, none)
      | (rt, st, some passes) => (rt, st, some (pass :: passes))

/-- `d3d11_effect_compiler::visit_technique` (lines 473-635) restricted to
pass construction: the technique's pass list is returned when
`add_technique` is reached, `none` when an `error()` caused an early
return. -/
def visit_technique (rt : Runtime) (st : CompilerState)
    (texture_bindings : List (Option View)) (passes : List PassInfo)
    (hrRtv : Nat → Nat → Int) (hrDss hrBlend : Nat → Int) :
    Runtime × CompilerState × Option (List Pass) :=
  build_passes texture_bindings hrRtv hrDss hrBlend passes 0 rt st

/-! ## C3: `d3d11_effect_compiler::compile_entry_point` -/

/-- `compile_entry_point` (lines 637-666): append the vendor compiler's
error blob if any, fail on a failing `D3DCompile`, then fail on a failing
`CreateVertexShader`/`CreatePixelShader`. -/
def compile_entry_point (st : CompilerState) (compileHr : Int)
    (compileErrors : Option String) (createShaderHr : Int) : CompilerState :=
  let st :=
    match compileErrors with
    | some blob => { st with errors := st.errors ++ blob }
    | none => st
  if hr_failed compileHr then
    cerror st "internal shader compilation failed"
  else if hr_failed createShaderHr then
    cerror st ("'CreateShader' failed with error code " ++ toString (to_ulong createShaderHr) ++ "!")
  else
    st

/-! ## C6: the SPIR-V word-stream serializer and `write_result` header

`make_id` and `_next_id` live in `effect_codegen.hpp`, which is not part
of the repository; they are modelled from the spec ("Monotonically
increasing counter starting at 1; final id bound is counter at write
time").  The instruction serializer `write` (lines 761-782) and the header
emission of `write_result` (lines 902-907) are embedded from the source. -/

/-- `spirv_instruction`: opcode, optional type id, optional result id
(0 = absent), operand words. -/
structure SpirvIns where
  op : Nat
  type : Nat
  result : Nat
  operands : List Nat
deriving DecidableEq, Repr

/-- `write(std::vector<uint32_t>&, const spirv_instruction&)`
(lines 765-782): first word is `(word_count << 16) | opcode` (32-bit),
then the optional type id, optional result id, and the operands. -/
def write_ins (ins : SpirvIns) : List Nat :=
  let num_words := 1 + (if ins.type != 0 then 1 else 0) +
                   (if ins.result != 0 then 1 else 0) + ins.operands.length
  (num_words % 65536 * 65536 ||| ins.op) ::
    ((if ins.type != 0 then [ins.type] else []) ++
     (if ins.result != 0 then [ins.result] else []) ++
     ins.operands)

/-- `spv::MagicNumber` from the SPIR-V headers. -/
def spv_MagicNumber : Nat := 0x07230203

/-- `spv::Version` word from the SPIR-V 1.0 headers. -/
def spv_Version : Nat := 0x00010000

/-- Modelled from the spec: the generator's id counter plus the module's
instruction stream (all sections flattened; the claim only concerns the
header words and the ids). -/
structure SpirvBuilder where
  next_id : Nat
  instructions : List SpirvIns
deriving DecidableEq, Repr

/-- A fresh generator: the id counter starts at 1. -/
def SpirvBuilder.initial : SpirvBuilder := { next_id := 1, instructions := [] }

/-- `add_instruction` (lines 876-882): allocate a fresh result id with
`make_id` and append the instruction. -/
def SpirvBuilder.add_ins (b : SpirvBuilder) (op ty : Nat) (operands : List Nat) :
    SpirvBuilder :=
  { next_id := b.next_id + 1
    instructions := b.instructions ++
      [{ op := op, type := ty, result := b.next_id, operands := operands }] }

/-- A module built by a sequence of `add_instruction` calls on a fresh
generator. -/
def build_module (ops : List (Nat × Nat × List Nat)) : SpirvBuilder :=
  ops.foldl (fun b o => b.add_ins o.1 o.2.1 o.2.2) .initial

/-- The header and instruction serialization of
`codegen_spirv::write_result` (lines 902-968): magic, version, generator
id 0, id bound (`_next_id`), schema 0, then the instruction words. -/
def spirv_write_result (b : SpirvBuilder) : List Nat :=
  [spv_MagicNumber, spv_Version, 0, b.next_id, 0] ++
  (b.instructions.map write_ins).flatten

/-- The largest result id appearing in a module's instructions. -/
def max_result_id (b : SpirvBuilder) : Nat :=
  (b.instructions.map (fun i => i.result)).foldl max 0

/-! ## C7: `codegen_spirv::emit_constant` and constant interning -/

/-- `reshadefx::constant`: sixteen 32-bit lanes (`as_uint`) plus the
recursive `array_data` vector.  Lanes beyond the stored list read as 0
(the C union is zero-initialized); the string payload is omitted because
no embedded operation reads it. -/
inductive Constant where
  | mk (lanes : List Nat) (array_data : List Constant)
deriving Repr

/-- The lane list. -/
def Constant.lanes : Constant → List Nat
  | .mk l _ => l

/-- The nested array payload. -/
def Constant.array_data : Constant → List Constant
  | .mk _ a => a

/-- `as_uint[i]`. -/
def Constant.lane (c : Constant) (i : Nat) : Nat := c.lanes.getD i 0

/-- `memcmp(&a.as_uint[0], &b.as_uint[0], sizeof(uint32_t) * 16) == 0`:
bitwise equality of the sixteen lanes. -/
def lanes16_eq (a b : Constant) : Bool :=
  (List.range 16).all fun i => a.lane i == b.lane i

/-- The `_constant_lookup` match predicate of `emit_constant`
(lines 1654-1661): exact type equality, 16-lane bitwise equality, equal
`array_data` sizes, and 16-lane bitwise equality of each array element
(one level deep — the elements' own `array_data` is not compared). -/
def constant_match (t1 : Ty) (c1 : Constant) (t2 : Ty) (c2 : Constant) : Bool :=
  t1 == t2 && lanes16_eq c1 c2 &&
  c1.array_data.length == c2.array_data.length &&
  (c1.array_data.zip c2.array_data).all fun p => lanes16_eq p.1 p.2

/-- `std::find_if` over `_constant_lookup`. -/
def const_find (entries : List (Ty × Constant × Nat)) (t : Ty) (d : Constant) :
    Option Nat :=
  match entries with
  | [] => none
  | e :: rest =>
    if constant_match e.1 e.2.1 t d then some e.2.2 else const_find rest t d

/-- `type::is_array()` (`array_length != 0`).  The defining header is not
in the repository; the predicates follow the spec's type invariants and
their use in the source. -/
def Ty.is_array (t : Ty) : Bool := decide (t.array_length ≠ 0)

/-- `type::is_struct()`. -/
def Ty.is_struct (t : Ty) : Bool := decide (t.base = t_struct)

/-- `type::is_matrix()` (more than one column; one-row matrices are still
matrices, see source line 1041). -/
def Ty.is_matrix (t : Ty) : Bool := decide (1 ≤ t.rows ∧ 1 < t.cols)

/-- `type::is_vector()`. -/
def Ty.is_vector (t : Ty) : Bool := decide (1 < t.rows ∧ t.cols = 1)

/-- Termination measure for the `emit_constant` recursion: arrays recurse
on their element type, matrices on their column-vector type, vectors on
their scalar type. -/
def Ty.crank (t : Ty) : Nat :=
  (if t.array_length ≠ 0 then 4 else 0) + (if 1 < t.cols then 2 else 0) +
  (if 1 < t.rows ∧ t.cols = 1 then 1 else 0)

/-- The `_constant_lookup` table plus the id counter (`make_id` is
modelled from the spec: a monotone counter). -/
structure EmitState where
  entries : List (Ty × Constant × Nat)
  next_id : Nat
deriving Repr

/-- A zero-initialized `constant {}` (used for array padding). -/
def zero_constant : Constant := .mk [] []

mutual

/-- `codegen_spirv::emit_constant` (lines 1650-1755): intern by the match
predicate; on a miss, recursively emit array elements (padding short
literals with zero constants up to `array_length`; the source asserts
`array_length > 0`, so the `Int.toNat` cast is exact on the asserted
domain), matrix rows and vector scalars, allocate the composite's result
id, and push the `(type, data, id)` entry.  Structs emit `OpConstantNull`;
booleans and scalars emit one instruction — these branches differ only in
the opcode, which the interning claim does not observe.  One-row matrices
reuse their single row's id (source line 1707) and push no instruction. -/
def emit_constant (st : EmitState) (t : Ty) (d : Constant) : Nat × EmitState :=
  match const_find st.entries t d with
  | some r => (r, st)
  | none =>
    if harr : t.is_array = true then
      let elem_ty := { t with array_length := 0 }
      let jobs := d.array_data ++
        List.replicate (t.array_length.toNat - d.array_data.length) zero_constant
      let r := emit_constant_list st elem_ty jobs
      let result := r.2.next_id
      (result, { entries := r.2.entries ++ [(t, d, result)], next_id := r.2.next_id + 1 })
    else if t.is_struct then
      let result := st.next_id
      (result, { entries := st.entries ++ [(t, d, result)], next_id := st.next_id + 1 })
    else if hmat : t.is_matrix = true then
      let row_ty := { t with rows := t.cols, cols := 1 }
      let rows := (List.range t.rows).map fun i =>
        Constant.mk ((List.range t.cols).map fun k => d.lane (i * t.cols + k)) []
      let r := emit_constant_list st row_ty rows
      if t.rows == 1 then
        let result := r.1.headD 0
        (result, { r.2 with entries := r.2.entries ++ [(t, d, result)] })
      else
        let result := r.2.next_id
        (result, { entries := r.2.entries ++ [(t, d, result)], next_id := r.2.next_id + 1 })
    else if hvec : t.is_vector = true then
      let scalar_ty := { t with rows := 1 }
      let scalars := (List.range t.rows).map fun i => Constant.mk [d.lane i] []
      let r := emit_constant_list st scalar_ty scalars
      let result := r.2.next_id
      (result, { entries := r.2.entries ++ [(t, d, result)], next_id := r.2.next_id + 1 })
    else
      let result := st.next_id
      (result, { entries := st.entries ++ [(t, d, result)], next_id := st.next_id + 1 })
termination_by ((2 * t.crank + 1 : Nat), (0 : Nat))
decreasing_by
  · apply Prod.Lex.left
    have ha : t.array_length ≠ 0 := by simpa [Ty.is_array] using harr
    have hlt : Ty.crank { t with array_length := 0 } < t.crank := by
      simp only [Ty.crank]
      split_ifs <;> simp_all <;> omega
    omega
  · apply Prod.Lex.left
    have h0 : t.array_length = 0 := by simpa [Ty.is_array] using harr
    have hm := (by simpa [Ty.is_matrix] using hmat : 1 ≤ t.rows ∧ 1 < t.cols)
    have hlt : Ty.crank { t with rows := t.cols, cols := 1 } < t.crank := by
      have hc := hm.2
      simp only [Ty.crank]
      split_ifs <;> simp_all <;> omega
    omega
  · apply Prod.Lex.left
    have h0 : t.array_length = 0 := by simpa [Ty.is_array] using harr
    have hv := (by simpa [Ty.is_vector] using hvec : 1 < t.rows ∧ t.cols = 1)
    have hlt : Ty.crank { t with rows := 1 } < t.crank := by
      have hr := hv.1
      have hc := hv.2
      simp only [Ty.crank]
      split_ifs <;> simp_all
    omega

/-- Sequential `emit_constant` over a list of sibling constants of one
element type (the element/row/scalar loops of the source). -/
def emit_constant_list (st : EmitState) (t : Ty) (ds : List Constant) :
    List Nat × EmitState :=
  match ds with
  | [] => ([], st)
  | d :: rest =>
    let r := emit_constant st t d
    let rr := emit_constant_list r.2 t rest
    (r.1 :: rr.1, rr.2)
termination_by ((2 * t.crank + 2 : Nat), ds.length)
decreasing_by
  · apply Prod.Lex.left
    omega
  · apply Prod.Lex.right
    simp

end

mutual

/-- Modelled from the spec: recursive constant-data matching ("their
array element data match recursively") — 16-lane bitwise equality at
every nesting level of `array_data`, with the same prefix convention as
the source's `zip`-style element loop. -/
def rec_match : Constant → Constant → Bool
  | .mk l1 a1, .mk l2 a2 =>
    lanes16_eq (.mk l1 a1) (.mk l2 a2) && a1.length == a2.length &&
    rec_match_list a1 a2

/-- Pointwise `rec_match` over paired elements. -/
def rec_match_list : List Constant → List Constant → Bool
  | [], _ => true
  | _ :: _, [] => true
  | x :: xs, y :: ys => rec_match x y && rec_match_list xs ys

end

/-- Interning-table delta of one `emit_constant` call: the call only
appends entries; on a lookup hit nothing changes at all, and on a miss
the appended entries are the recursively emitted sub-constants — whose
types have strictly smaller recursion rank — followed by the
`(t, d, result)` entry for the call itself. -/
def EmitDelta (st : EmitState) (t : Ty) (d : Constant) : Prop :=
  ∃ E, (emit_constant st t d).2.entries = st.entries ++ E ∧
    ((∃ r0, const_find st.entries t d = some r0 ∧ emit_constant st t d = (r0, st)) ∨
     (const_find st.entries t d = none ∧
      ∃ E0, E = E0 ++ [(t, d, (emit_constant st t d).1)] ∧
        ∀ e ∈ E0, Ty.crank e.1 < t.crank))

/-- Interning-table delta of an `emit_constant_list` loop: entries are
only appended, and every appended entry's type rank is at most the
element type's rank. -/
def EmitListDelta (st : EmitState) (t : Ty) (ds : List Constant) : Prop :=
  ∃ E, (emit_constant_list st t ds).2.entries = st.entries ++ E ∧
    ∀ e ∈ E, Ty.crank e.1 ≤ t.crank

/-! ## Concrete fixtures used by the counterexamples and witnesses -/

/-- A typical `visit_sampler` descriptor: linear filter 0x15, clamp
addressing, `MaxLOD = 1000.0f` (bit pattern `0x447A0000`). -/
def c2_info : SamplerInfo :=
  { texture_name := "tex0", filter := 0x15, address_u := 3, address_v := 3,
    address_w := 3, lod_bias := 0, min_lod := 0, max_lod := 0x447A0000,
    srgb := false, binding := 0 }

/-- A registered 64x64 `rgba8` texture with created device objects. -/
def fix_tex : Texture :=
  { unique_name := "tex0", effect_filename := "a.fx", width := 64, height := 64,
    levels := 1, format := .rgba8,
    impl := { texture := some 3, srv0 := some { resource := 3 },
              srv1 := some { resource := 3 }, rtv0 := none, rtv1 := none } }

/-- A runtime holding `fix_tex`, an empty sampler-state cache, and
backbuffer/depth views on resources 0-2. -/
def fix_rt : Runtime :=
  { textures := [fix_tex], sampler_states := [],
    frame_width := 16, frame_height := 16,
    backbuffer_rtv0 := { resource := 1 }, backbuffer_rtv1 := { resource := 1 },
    backbuffer_srv0 := { resource := 2 }, backbuffer_srv1 := { resource := 2 },
    depthstencil_srv := { resource := 0 }, next_obj := 10 }

/-- A fresh compiler state. -/
def fix_st : CompilerState := { success := true, errors := "" }

/-- `float[1]`: a one-element array of `float`. -/
def c7_arr_ty : Ty :=
  { base := t_float, rows := 1, cols := 1, array_length := 1,
    definition := 0, is_ptr := false }

/-- An array literal whose single element has zero lanes and no nested
data. -/
def c7_d1 : Constant := .mk [] [.mk [] []]

/-- An array literal whose single element has zero lanes but different
nested `array_data` — shallowly equal to `c7_d1`, recursively different. -/
def c7_d2 : Constant := .mk [] [.mk [] [.mk [7] []]]

/-! ## C1: uniform layout of `float a; float3 b; float c` -/

/-- C1, counterexample: for the uniform sequence `float a; float3 b;
float c`, `define_uniform` does **not** assign the offsets `{0, 16, 28}`
the claim states — `c`'s size is 4, so it is aligned to 4 and lands at
offset 32 (the running offset after `b` is `16 + 16 = 32`, because the
source sizes a `float3` as `4 * 4 = 16` bytes, not 12). -/
theorem C1_counterexample :
    (define_uniform_offsets [floatTy, float3Ty, floatTy]).1 ≠ [0, 16, 28] := by
  decide

/-- C1, amended: for the uniform sequence `float a; float3 b; float c`,
`define_uniform` assigns member byte offsets 0, 16 and 32, and the
running block offset afterwards is 36 (each uniform's size is
`4 * (rows==3 ? 4 : rows) * cols * max(1, array_length)`, its offset is
`align(current_offset, size)`, and `current_offset` then advances by
`size`). -/
theorem C1_uniform_layout :
    define_uniform_offsets [floatTy, float3Ty, floatTy] = ([0, 16, 32], 36) := by
  decide

/-! ## C2: the sampler interning hash -/

set_option maxRecDepth 8000 in
/-- C2, counterexample: the hash `visit_sampler` actually computes over
the raw descriptor bytes multiplies first and XORs the byte in afterwards
(FNV-1 order, accumulated in `size_t`), so on the concrete descriptor
`c2_info` it differs from the FNV-1a 32-bit hash the claim describes. -/
theorem C2_counterexample :
    desc_hash (sampler_desc_bytes c2_info) ≠ fnv1a32 (sampler_desc_bytes c2_info) := by
  decide

/-! ## C9: `visit_sampler` on an unregistered texture -/

/-- C9: if the sampler's texture name is not registered in the runtime's
texture registry, `visit_sampler` returns immediately: no sampler state
is created, no binding slot is touched, and the failure flag and error
string are unchanged. -/
theorem C9_unknown_texture (rt : Runtime) (st : CompilerState) (b : Bindings)
    (info : SamplerInfo) (hr : Int)
    (h : rt.find_texture info.texture_name = none) :
    visit_sampler rt st b info hr = (rt, st, b) := by
  simp [visit_sampler, h]

/-- C9, witness: a concrete run against a runtime with an empty texture
registry leaves everything unchanged. -/
theorem C9_unknown_texture_witness :
    visit_sampler { fix_rt with textures := [] } fix_st
        { sampler_bindings := [], texture_bindings := [] } c2_info 0 =
      ({ fix_rt with textures := [] }, fix_st,
        { sampler_bindings := [], texture_bindings := [] }) :=
  C9_unknown_texture _ _ _ _ _ (by decide)

/-! ## C4: texture redeclaration -/

/-- A redeclaration of `fix_tex`'s name with a non-empty semantic and a
different width. -/
def c4_info : TextureInfo :=
  { unique_name := "tex0", semantic := "COLOR", width := 1, height := 64,
    levels := 1, format := .rgba8 }

/-- C4, counterexample: redeclaring a registered texture with a
**non-empty semantic** and a differing width does *not* call `error()`
— the mismatch check on source line 282 is guarded by
`texture_info.semantic.empty()`, so the call returns silently and the
failure flag stays clear, contradicting the claim's "if any of those
fields differs, error() is called". -/
theorem C4_counterexample :
    fix_tex.width ≠ c4_info.width ∧
    visit_texture fix_rt fix_st c4_info
        { createTexture2D := 0, createSRV0 := 0, createSRV1 := 0 } =
      (fix_rt, fix_st) := by
  constructor
  · decide
  · decide

/-- C4, amended: for every call to `visit_texture` whose unique name
already names a registered texture: if width, height, levels and format
all match the existing texture, the call returns with no error and adds
no new texture (idempotent merge); if any of those fields differs **and
the declaration's semantic is empty**, `error()` is called (setting the
failure flag and appending the source's message) and no texture is
added.  (A redeclaration with a non-empty semantic returns silently even
on a mismatch.) -/
theorem C4_redeclaration (rt : Runtime) (st : CompilerState) (info : TextureInfo)
    (hr : TexHr) (existing : Texture)
    (h : rt.find_texture info.unique_name = some existing) :
    (existing.width = info.width ∧ existing.height = info.height ∧
     existing.levels = info.levels ∧ existing.format = info.format →
       visit_texture rt st info hr = (rt, st)) ∧
    (info.semantic = "" →
     ¬ (existing.width = info.width ∧ existing.height = info.height ∧
        existing.levels = info.levels ∧ existing.format = info.format) →
       (visit_texture rt st info hr).1 = rt ∧
       (visit_texture rt st info hr).2.success = false ∧
       (visit_texture rt st info hr).2.errors =
         st.errors ++ "error: " ++ existing.effect_filename ++
           " already created a texture with the same name but different dimensions; textures are shared across all effects, so either rename the variable or adjust the dimensions so they match" ++ "\n") := by
  constructor
  · rintro ⟨hw, hh, hl, hf⟩
    simp [visit_texture, h, hw, hh, hl, hf]
  · intro hsem hmm
    have hcond : (info.semantic == "" &&
        (existing.width != info.width || existing.height != info.height ||
         existing.levels != info.levels || existing.format != info.format)) = true := by
      have : existing.width ≠ info.width ∨ existing.height ≠ info.height ∨
          existing.levels ≠ info.levels ∨ existing.format ≠ info.format := by
        by_contra hc
        push_neg at hc
        exact hmm ⟨hc.1, hc.2.1, hc.2.2.1, hc.2.2.2⟩
      rcases this with hne | hne | hne | hne <;> simp [hsem, hne]
    simp [visit_texture, h, hcond, cerror, String.append_assoc]

/-- C4, witness: both branches of the amended statement exercised on
concrete inputs — a matching redeclaration of `fix_tex` is a silent
merge, and an empty-semantic redeclaration with a differing width sets
the failure flag. -/
theorem C4_redeclaration_witness :
    (visit_texture fix_rt fix_st
        { unique_name := "tex0", semantic := "", width := 64, height := 64,
          levels := 1, format := .rgba8 }
        { createTexture2D := 0, createSRV0 := 0, createSRV1 := 0 } =
      (fix_rt, fix_st)) ∧
    (visit_texture fix_rt fix_st
        { unique_name := "tex0", semantic := "", width := 1, height := 64,
          levels := 1, format := .rgba8 }
        { createTexture2D := 0, createSRV0 := 0, createSRV1 := 0 }).2.success = false := by
  constructor
  · exact (C4_redeclaration fix_rt fix_st _ _ fix_tex (by decide)).1
      (by refine ⟨?_, ?_, ?_, ?_⟩ <;> decide)
  · exact ((C4_redeclaration fix_rt fix_st _ _ fix_tex (by decide)).2
      (by decide) (by intro hc; exact absurd hc.1 (by decide))).2.1

/-! ## C8: `add_string` packing -/

theorem and_mask_zero {x : Nat} (h : x < 2 ^ 24) : x &&& 0xFF000000 = 0 := by
  apply Nat.eq_of_testBit_eq
  intro i
  simp only [Nat.testBit_and, Nat.zero_testBit]
  by_cases hi : i < 24
  · have hm : Nat.testBit 0xFF000000 i = false := by
      rw [show (0xFF000000 : Nat) = 255 <<< 24 by decide, Nat.testBit_shiftLeft]
      simp [Nat.not_le.mpr hi]
    simp [hm]
  · have h2 : (2 : Nat) ^ 24 ≤ 2 ^ i :=
      Nat.pow_le_pow_right (by norm_num) (by omega)
    have hx : Nat.testBit x i = false :=
      Nat.testBit_lt_two_pow (lt_of_lt_of_le h h2)
    simp [hx]

theorem and_mask_ne_zero (lo d : Nat) (hlo : lo < 2 ^ 24) (hd0 : 0 < d)
    (hd : d < 256) : (lo + 16777216 * d) &&& 0xFF000000 ≠ 0 := by
  intro h0
  have hx : (lo + 16777216 * d) >>> 24 = d := by
    rw [Nat.shiftRight_eq_div_pow]
    have h24 : (2 : Nat) ^ 24 = 16777216 := by norm_num
    rw [h24]
    omega
  obtain ⟨j, hj⟩ : ∃ j, Nat.testBit d j = true := by
    by_contra hno
    push_neg at hno
    have hz : d = 0 := Nat.eq_of_testBit_eq fun i => by
      simp [Bool.eq_false_iff.mpr (hno i)]
    omega
  have hj8 : j < 8 := by
    by_contra hge
    push_neg at hge
    have h2 : (256 : Nat) ≤ 2 ^ j := by
      calc (256 : Nat) = 2 ^ 8 := by norm_num
      _ ≤ 2 ^ j := Nat.pow_le_pow_right (by norm_num) hge
    have hf : Nat.testBit d j = false :=
      Nat.testBit_lt_two_pow (lt_of_lt_of_le hd h2)
    simp [hf] at hj
  have h1 : Nat.testBit (lo + 16777216 * d) (24 + j) = true := by
    have hs := Nat.testBit_shiftRight (i := 24) (j := j) (lo + 16777216 * d)
    rw [hx, hj] at hs
    exact hs.symm
  have h2 : Nat.testBit 0xFF000000 (24 + j) = true := by
    rw [show (0xFF000000 : Nat) = 255 <<< 24 by decide, Nat.testBit_shiftLeft]
    have hc : 24 + j - 24 = j := by omega
    have hle : decide (24 ≤ 24 + j) = true := by simp
    rw [hc, hle, Bool.true_and]
    interval_cases j <;> decide
  have hbit : Nat.testBit ((lo + 16777216 * d) &&& 0xFF000000) (24 + j) = true := by
    rw [Nat.testBit_and, h1, h2]
    rfl
  rw [h0] at hbit
  simp [Nat.zero_testBit] at hbit

theorem le_word_lt_of_short (chunk : List Nat) (hb : ∀ b ∈ chunk, 0 < b ∧ b < 256)
    (hlen : chunk.length ≤ 3) : le_word chunk < 2 ^ 24 := by
  match chunk, hlen with
  | [], _ => simp [le_word]
  | [a], _ =>
    have := hb a (by simp)
    simp only [le_word]
    omega
  | [a, b], _ =>
    have ha := hb a (by simp)
    have hbb := hb b (by simp)
    simp only [le_word]
    omega
  | [a, b, c], _ =>
    have ha := hb a (by simp)
    have hbb := hb b (by simp)
    have hc := hb c (by simp)
    simp only [le_word]
    omega

/-- A list that does not match the five-or-more cons pattern has at most
four elements. -/
theorem length_le_four_of_nshape (chunk : List Nat)
    (h : ∀ (a b c d e : Nat) (rest : List Nat),
      chunk = a :: b :: c :: d :: e :: rest → False) :
    chunk.length ≤ 4 := by
  match chunk with
  | [] => simp
  | [a] => simp
  | [a, b] => simp
  | [a, b, c] => simp
  | [a, b, c, d] => simp
  | a :: b :: c :: d :: e :: rest => exact absurd rfl (h a b c d e rest)

/-- Unfolding of `add_string_words` on a final chunk of at most four
bytes. -/
theorem add_string_words_small (chunk : List Nat) (h : chunk.length ≤ 4) :
    add_string_words chunk =
      if le_word chunk &&& 0xFF000000 ≠ 0 then [le_word chunk, 0]
      else [le_word chunk] := by
  match chunk, h with
  | [], _ => rfl
  | [a], _ => rfl
  | [a, b], _ => rfl
  | [a, b, c], _ => rfl
  | [a, b, c, d], _ => rfl

/-- C8: for every NUL-terminated string (given as its list of non-NUL
content bytes), `add_string` packs the bytes little-endian four per word
(the `i`-th emitted word is `le_word` of the `i`-th four-byte chunk, with
missing bytes reading 0), always appends at least one word (the word
count is `length / 4 + 1`, so the encoding is a whole number of 32-bit
words and the empty string still yields one zero word), and the encoding
always contains a NUL byte (some emitted word has a zero top byte). -/
theorem C8_add_string (s : List Nat) (hb : ∀ b ∈ s, 0 < b ∧ b < 256) :
    (add_string_words s).length = s.length / 4 + 1 ∧
    (∀ i < (add_string_words s).length,
       (add_string_words s).getD i 0 = le_word ((s.drop (4 * i)).take 4)) ∧
    ∃ w ∈ add_string_words s, w &&& 0xFF000000 = 0 := by
  induction s using add_string_words.induct with
  | case1 a b c d e rest ih =>
    obtain ⟨ihl, ihw, iht⟩ := ih (fun x hx => hb x (by simp at hx ⊢; tauto))
    refine ⟨?_, ?_, ?_⟩
    · simp only [add_string_words, List.length_cons, ihl, List.length_cons]
      omega
    · intro i hi
      match i with
      | 0 => simp [add_string_words, le_word]
      | i + 1 =>
        simp only [add_string_words, List.getD_cons_succ]
        rw [ihw i (by simpa [add_string_words] using hi)]
        have h4 : 4 * (i + 1) = 4 + 4 * i := by omega
        rw [h4, ← List.drop_drop (4 * i) 4]
        simp [List.drop]
    · obtain ⟨w, hw, hwz⟩ := iht
      exact ⟨w, by simp [add_string_words, hw], hwz⟩
  | case2 chunk hshape word htop =>
    have hle4 := length_le_four_of_nshape chunk hshape
    have heq := add_string_words_small chunk hle4
    rw [if_pos htop] at heq
    have hlen4 : chunk.length = 4 := by
      rcases Nat.lt_or_ge chunk.length 4 with hlt | hge
      · exact absurd (and_mask_zero (le_word_lt_of_short chunk hb (by omega))) htop
      · omega
    refine ⟨?_, ?_, ?_⟩
    · rw [heq]
      simp [hlen4]
    · intro i hi
      rw [heq] at hi
      simp only [List.length_cons, List.length_singleton] at hi
      match i, hi with
      | 0, _ =>
        rw [heq]
        simp [List.take_of_length_le (by omega : chunk.length ≤ 4)]
      | 1, _ =>
        have hdrop : chunk.drop 4 = [] := List.drop_eq_nil_of_le (by omega)
        rw [heq]
        simp [hdrop, le_word]
    · exact ⟨0, by rw [heq]; simp, by decide⟩
  | case3 chunk hshape word htop =>
    have hle4 := length_le_four_of_nshape chunk hshape
    have heq := add_string_words_small chunk hle4
    rw [if_neg htop] at heq
    have htz : le_word chunk &&& 0xFF000000 = 0 := by
      by_contra hc
      exact htop hc
    have hlen : chunk.length ≤ 3 := by
      rcases Nat.lt_or_ge chunk.length 4 with hlt | hge
      · omega
      · exfalso
        have hlen4 : chunk.length = 4 := by omega
        match chunk, hlen4 with
        | [a, b, c, d], _ =>
          have ha := hb a (by simp)
          have hbb := hb b (by simp)
          have hc := hb c (by simp)
          have hd := hb d (by simp)
          refine and_mask_ne_zero (a + 256 * b + 65536 * c) d (by omega) hd.1 hd.2 ?_
          simpa [le_word] using htz
    refine ⟨?_, ?_, ?_⟩
    · rw [heq]
      have hq : chunk.length / 4 = 0 := by omega
      simp [hq]
    · intro i hi
      rw [heq] at hi
      simp only [List.length_singleton] at hi
      match i, hi with
      | 0, _ =>
        rw [heq]
        simp [List.take_of_length_le (by omega : chunk.length ≤ 4)]
    · exact ⟨le_word chunk, by rw [heq]; simp, htz⟩

/-- C8, witness: the packing facts evaluated on the concrete string
`"GLSL.std.450"` (12 content bytes): 4 words, and the final padding word
is `le_word []` = 0, the guaranteed NUL. -/
theorem C8_add_string_witness :
    (add_string_words [71, 76, 83, 76, 46, 115, 116, 100, 46, 52, 53, 48]).length =
      12 / 4 + 1 ∧
    (add_string_words [71, 76, 83, 76, 46, 115, 116, 100, 46, 52, 53, 48]).getD 3 0 =
      le_word [] := by
  obtain ⟨hl, hw, _⟩ :=
    C8_add_string [71, 76, 83, 76, 46, 115, 116, 100, 46, 52, 53, 48] (by decide)
  refine ⟨hl, ?_⟩
  have h3 := hw 3 (by rw [hl]; decide)
  simpa using h3

/-! ## C6: the `write_result` header and the id bound -/

theorem build_fold_spec (ops : List (Nat × Nat × List Nat)) (b0 : SpirvBuilder) :
    (ops.foldl (fun b o => b.add_ins o.1 o.2.1 o.2.2) b0).next_id =
        b0.next_id + ops.length ∧
    (ops.foldl (fun b o => b.add_ins o.1 o.2.1 o.2.2) b0).instructions.map
        (fun i => i.result) =
      b0.instructions.map (fun i => i.result) ++
        List.range' b0.next_id ops.length := by
  induction ops generalizing b0 with
  | nil => simp
  | cons o rest ih =>
    obtain ⟨ih1, ih2⟩ := ih (b0.add_ins o.1 o.2.1 o.2.2)
    constructor
    · rw [List.foldl_cons, ih1]
      simp [SpirvBuilder.add_ins]
      omega
    · rw [List.foldl_cons, ih2]
      simp only [SpirvBuilder.add_ins, List.map_append, List.map_cons, List.map_nil,
        List.length_cons, List.range'_succ, List.append_assoc]
      rfl

theorem foldl_max_above (n a : Nat) :
    List.foldl max a (List.range' (a + 1) n) = a + n := by
  induction n generalizing a with
  | zero => simp
  | succ m ih =>
    rw [List.range'_succ, List.foldl_cons, max_eq_right (by omega)]
    have := ih (a + 1)
    omega

/-- C6: every module serialized by `write_result` begins with the five
words magic `0x07230203`, the SPIR-V version word, 0 (generator id), the
id bound `_next_id`, and 0 (schema); and for a module built by
`add_instruction` calls on a fresh generator, that id bound equals the
largest result id appearing in the module plus one (`make_id` is the
spec's monotone counter starting at 1). -/
theorem C6_write_result (ops : List (Nat × Nat × List Nat)) :
    (∃ tail, spirv_write_result (build_module ops) =
      0x07230203 :: spv_Version :: 0 :: (build_module ops).next_id :: 0 :: tail) ∧
    (build_module ops).next_id = max_result_id (build_module ops) + 1 := by
  constructor
  · exact ⟨(((build_module ops).instructions.map write_ins).flatten), rfl⟩
  · obtain ⟨h1, h2⟩ := build_fold_spec ops .initial
    have hmax : max_result_id (build_module ops) = ops.length := by
      unfold max_result_id build_module
      rw [h2]
      simpa using foldl_max_above ops.length 0
    rw [hmax]
    unfold build_module
    rw [h1]
    simp [SpirvBuilder.initial]
    omega

/-! ## C2 (amended): interning key and sharing of sampler states -/

theorem resize_bindings_length {α : Type} (l : List (Option α)) (n : Nat) :
    (resize_bindings l n).length = max l.length n := by
  simp [resize_bindings]

theorem bind_set_getD {α : Type} (l : List (Option α)) (n : Nat) (x : Option α) :
    ((resize_bindings l (n + 1)).set n x).getD n none = x := by
  have hlt : n < (resize_bindings l (n + 1)).length := by
    rw [resize_bindings_length]
    omega
  rw [List.getD_eq_getElem?_getD, List.getElem?_set_self (by simpa using hlt)]
  rfl

/-- C2, amended: the interning key `visit_sampler` uses is the FNV-1
style hash `desc_hash` of the raw bytes of the filled
`D3D11_SAMPLER_DESC` (seed 2166136261; for each byte, multiply the hash
by 16777619 and then XOR the byte in, accumulated in `size_t`), and two
samplers with byte-identical descriptors share one sampler-state object:
if a first `visit_sampler` succeeds, a second call whose descriptor
serializes to the same bytes binds the same state id, which the cache
stores under `desc_hash` of those bytes. -/
theorem C2_sampler_interning (rt : Runtime) (st : CompilerState) (b : Bindings)
    (i1 i2 : SamplerInfo) (hr1 hr2 : Int)
    (h1 : (rt.find_texture i1.texture_name).isSome = true)
    (h2 : (((visit_sampler rt st b i1 hr1).1).find_texture i2.texture_name).isSome = true)
    (hok : hr_failed hr1 = false)
    (hbytes : sampler_desc_bytes i1 = sampler_desc_bytes i2) :
    ∃ s,
      (visit_sampler rt st b i1 hr1).2.2.sampler_bindings.getD i1.binding none = some s ∧
      (visit_sampler (visit_sampler rt st b i1 hr1).1 (visit_sampler rt st b i1 hr1).2.1
          (visit_sampler rt st b i1 hr1).2.2 i2 hr2).2.2.sampler_bindings.getD
        i2.binding none = some s ∧
      (desc_hash (sampler_desc_bytes i1), s) ∈
        (visit_sampler (visit_sampler rt st b i1 hr1).1 (visit_sampler rt st b i1 hr1).2.1
          (visit_sampler rt st b i1 hr1).2.2 i2 hr2).1.sampler_states := by
  obtain ⟨tex1, htex1⟩ := Option.isSome_iff_exists.mp h1
  cases hfind : rt.sampler_states.find?
      (fun p => p.1 == desc_hash (sampler_desc_bytes i1)) with
  | some p =>
    have hfirst : visit_sampler rt st b i1 hr1 =
        (rt, st,
          { sampler_bindings :=
              (resize_bindings b.sampler_bindings (i1.binding + 1)).set i1.binding (some p.2)
            texture_bindings :=
              (resize_bindings b.texture_bindings (i1.binding + 1)).set i1.binding
                (tex1.impl.srv (if i1.srgb then 1 else 0)) }) := by
      simp [visit_sampler, htex1, hfind]
    rw [hfirst] at h2 ⊢
    obtain ⟨tex2, htex2⟩ := Option.isSome_iff_exists.mp h2
    have hfind2 : rt.sampler_states.find?
        (fun q => q.1 == desc_hash (sampler_desc_bytes i2)) = some p := by
      rw [← hbytes]
      exact hfind
    refine ⟨p.2, bind_set_getD _ _ _, ?_, ?_⟩
    · simp only [visit_sampler, htex2, hfind2]
      exact bind_set_getD _ _ _
    · simp only [visit_sampler, htex2, hfind2]
      have hp1 : p.1 = desc_hash (sampler_desc_bytes i1) := by
        have hps := List.find?_some hfind
        simpa using hps
      have hmem : p ∈ rt.sampler_states := List.mem_of_find?_eq_some hfind
      have hpe : (desc_hash (sampler_desc_bytes i1), p.2) = p := by
        rw [← hp1]
      rw [hpe]
      exact hmem
  | none =>
    have hsid : visit_sampler rt st b i1 hr1 =
        ({ rt with
            sampler_states := rt.sampler_states ++
              [(desc_hash (sampler_desc_bytes i1), rt.next_obj)]
            next_obj := rt.next_obj + 1 }, st,
          { sampler_bindings :=
              (resize_bindings b.sampler_bindings (i1.binding + 1)).set i1.binding
                (some rt.next_obj)
            texture_bindings :=
              (resize_bindings b.texture_bindings (i1.binding + 1)).set i1.binding
                (tex1.impl.srv (if i1.srgb then 1 else 0)) }) := by
      simp [visit_sampler, htex1, hfind, hok]
    rw [hsid] at h2 ⊢
    obtain ⟨tex2, htex2⟩ := Option.isSome_iff_exists.mp h2
    have hfind2 : (rt.sampler_states ++
        [(desc_hash (sampler_desc_bytes i1), rt.next_obj)]).find?
          (fun q => q.1 == desc_hash (sampler_desc_bytes i2)) =
        some (desc_hash (sampler_desc_bytes i1), rt.next_obj) := by
      rw [← hbytes, List.find?_append, hfind]
      simp
    refine ⟨rt.next_obj, bind_set_getD _ _ _, ?_, ?_⟩
    · simp only [visit_sampler, htex2, hfind2]
      exact bind_set_getD _ _ _
    · simp only [visit_sampler, htex2, hfind2]
      simp

/-- C2 (amended), witness: two byte-identical descriptors processed
against `fix_rt` (texture registered, empty cache) bind one shared
sampler-state object, cached under `desc_hash`. -/
theorem C2_sampler_interning_witness :
    ∃ s,
      (visit_sampler fix_rt fix_st { sampler_bindings := [], texture_bindings := [] }
          c2_info 0).2.2.sampler_bindings.getD c2_info.binding none = some s ∧
      (visit_sampler
          (visit_sampler fix_rt fix_st
            { sampler_bindings := [], texture_bindings := [] } c2_info 0).1
          (visit_sampler fix_rt fix_st
            { sampler_bindings := [], texture_bindings := [] } c2_info 0).2.1
          (visit_sampler fix_rt fix_st
            { sampler_bindings := [], texture_bindings := [] } c2_info 0).2.2
          c2_info 7).2.2.sampler_bindings.getD c2_info.binding none = some s ∧
      (desc_hash (sampler_desc_bytes c2_info), s) ∈
        (visit_sampler
          (visit_sampler fix_rt fix_st
            { sampler_bindings := [], texture_bindings := [] } c2_info 0).1
          (visit_sampler fix_rt fix_st
            { sampler_bindings := [], texture_bindings := [] } c2_info 0).2.1
          (visit_sampler fix_rt fix_st
            { sampler_bindings := [], texture_bindings := [] } c2_info 0).2.2
          c2_info 7).1.sampler_states :=
  C2_sampler_interning fix_rt fix_st _ c2_info c2_info 0 7 (by decide)
    (by decide) (by decide) rfl

/-! ## C3: severity of device-call failures -/

set_option maxRecDepth 8000 in
/-- C3, counterexample: a failing `CreateSamplerState` (`HRESULT`
`-2005270527` = `0x887A0001`) during `visit_sampler` calls `error()` and
marks the module failed — the claim says sampler-state creation failures
are downgraded to warnings and leave the module unmarked. -/
theorem C3_counterexample :
    (visit_sampler fix_rt fix_st { sampler_bindings := [], texture_bindings := [] }
        c2_info (-2005270527)).2.1.success = false := by
  decide

theorem bind_rts_success (info : PassInfo) (hrRtv : Nat → Int) (ks : List Nat)
    (rt : Runtime) (st : CompilerState) (pass : Pass) (rt2 : Runtime)
    (st2 : CompilerState) (p2 : Pass)
    (h : bind_rts info hrRtv ks rt st pass = (rt2, st2, some p2)) :
    st2.success = st.success := by
  induction ks generalizing rt st pass with
  | nil =>
    simp only [bind_rts] at h
    cases h
    rfl
  | cons k ks ih =>
    simp only [bind_rts] at h
    split at h
    · exact ih _ _ _ h
    · split at h
      · simp at h
      · split at h
        · simp at h
        · have hx := ih _ _ _ h
          rw [hx]
          repeat' split
          all_goals simp [cwarning]

theorem build_pass_success (rt : Runtime) (st : CompilerState)
    (tb : List (Option View)) (info : PassInfo) (hrRtv : Nat → Int)
    (hrDss hrBlend : Int) (rt2 : Runtime) (st2 : CompilerState) (p2 : Pass)
    (h : build_pass rt st tb info hrRtv hrDss hrBlend = (rt2, st2, some p2)) :
    st2.success = st.success := by
  simp only [build_pass] at h
  split at h
  · simp at h
  · rename_i rt1 st1 pass1 heq
    have hs1 : st1.success = st.success := bind_rts_success _ _ _ _ _ _ _ _ _ heq
    simp only [Prod.mk.injEq] at h
    obtain ⟨h1, h2, h3⟩ := h
    rw [← h2]
    by_cases hd : hr_failed hrDss = true <;> by_cases hb : hr_failed hrBlend = true <;>
      simp [hd, hb, cwarning, hs1]

theorem build_passes_success (tb : List (Option View)) (hrRtv : Nat → Nat → Int)
    (hrDss hrBlend : Nat → Int) (infos : List PassInfo) (i : Nat) (rt : Runtime)
    (st : CompilerState) (rt2 : Runtime) (st2 : CompilerState) (ps : List Pass)
    (h : build_passes tb hrRtv hrDss hrBlend infos i rt st = (rt2, st2, some ps)) :
    st2.success = st.success := by
  induction infos generalizing i rt st rt2 st2 ps with
  | nil =>
    simp only [build_passes] at h
    cases h
    rfl
  | cons info rest ih =>
    simp only [build_passes] at h
    split at h
    · simp at h
    · rename_i rt1 st1 pass1 hbp
      split at h
      · simp at h
      · rename_i rt3 st3 ps3 hrec
        simp only [Prod.mk.injEq] at h
        obtain ⟨h1, h2, h3⟩ := h
        rw [← h2, ih _ _ _ _ _ _ hrec, build_pass_success _ _ _ _ _ _ _ _ _ _ hbp]

/-- C3, amended: during linking, render-target-view creation failures
(and depth-stencil/blend state failures) are reported as warnings and do
not mark the module failed — the pass is still built, with the view left
null — while texture creation, shader-resource-view creation,
sampler-state creation, and shader creation failures call `error()` and
mark the module failed (and abandon the entity being created). -/
theorem C3_failure_severity :
    (∀ (rt : Runtime) (st : CompilerState) (info : TextureInfo) (hr : TexHr),
       rt.find_texture info.unique_name = none → info.semantic = "" →
       hr_failed hr.createTexture2D = true →
       (visit_texture rt st info hr).2.success = false ∧
       (visit_texture rt st info hr).1.textures = rt.textures) ∧
    (∀ (rt : Runtime) (st : CompilerState) (info : TextureInfo) (hr : TexHr),
       rt.find_texture info.unique_name = none → info.semantic = "" →
       hr_failed hr.createTexture2D = false → hr_failed hr.createSRV0 = true →
       (visit_texture rt st info hr).2.success = false ∧
       (visit_texture rt st info hr).1.textures = rt.textures) ∧
    (∀ (rt : Runtime) (st : CompilerState) (b : Bindings) (info : SamplerInfo)
       (hr : Int),
       (rt.find_texture info.texture_name).isSome = true →
       rt.sampler_states.find?
         (fun p => p.1 == desc_hash (sampler_desc_bytes info)) = none →
       hr_failed hr = true →
       (visit_sampler rt st b info hr).2.1.success = false ∧
       (visit_sampler rt st b info hr).2.2 = b) ∧
    (∀ (st : CompilerState) (chr : Int) (blob : Option String) (shr : Int),
       hr_failed chr = false → hr_failed shr = true →
       (compile_entry_point st chr blob shr).success = false) ∧
    (∀ (tb : List (Option View)) (hrRtv : Nat → Nat → Int)
       (hrDss hrBlend : Nat → Int) (infos : List PassInfo) (rt rt2 : Runtime)
       (st st2 : CompilerState) (ps : List Pass),
       visit_technique rt st tb infos hrRtv hrDss hrBlend = (rt2, st2, some ps) →
       st2.success = st.success) := by
  refine ⟨?_, ?_, ?_, ?_, ?_⟩
  · intro rt st info hr hfind hsem hhr
    simp [visit_texture, hfind, hsem, hhr, cerror]
  · intro rt st info hr hfind hsem hok hhr
    simp [visit_texture, hfind, hsem, hok, hhr, cerror]
  · intro rt st b info hr hfind hmiss hhr
    obtain ⟨tex, htex⟩ := Option.isSome_iff_exists.mp hfind
    simp [visit_sampler, htex, hmiss, hhr, cerror]
  · intro st chr blob shr hok hhr
    cases blob <;> simp [compile_entry_point, hok, hhr, cerror]
  · intro tb hrRtv hrDss hrBlend infos rt rt2 st st2 ps h
    exact build_passes_success _ _ _ _ _ _ _ _ _ _ _ h

set_option maxRecDepth 8000 in
/-- C3, witness: all five severity facts at concrete inputs — failing
texture / SRV / sampler / shader creations flip the failure flag, while
a technique whose render-target-view creation fails still builds with
the flag intact. -/
theorem C3_failure_severity_witness :
    ((visit_texture { fix_rt with textures := [] } fix_st
        { unique_name := "n", semantic := "", width := 4, height := 4,
          levels := 1, format := .rgba8 }
        { createTexture2D := -1, createSRV0 := 0, createSRV1 := 0 }).2.success
      = false) ∧
    ((visit_texture { fix_rt with textures := [] } fix_st
        { unique_name := "n", semantic := "", width := 4, height := 4,
          levels := 1, format := .rgba8 }
        { createTexture2D := 0, createSRV0 := -1, createSRV1 := 0 }).2.success
      = false) ∧
    ((visit_sampler fix_rt fix_st { sampler_bindings := [], texture_bindings := [] }
        c2_info (-1)).2.1.success = false) ∧
    ((compile_entry_point fix_st 0 none (-1)).success = false) ∧
    ((visit_technique fix_rt fix_st []
        [{ render_target_names := ["tex0"], srgb_write_enable := false,
           clear_render_targets := false }]
        (fun _ _ => -1) (fun _ => 0) (fun _ => 0)).2.1.success = true) := by
  refine ⟨?_, ?_, ?_, ?_, ?_⟩
  · exact (C3_failure_severity.1 _ _ _ _ (by decide) (by decide) (by decide)).1
  · exact (C3_failure_severity.2.1 _ _ _ _ (by decide) (by decide) (by decide)
      (by decide)).1
  · exact (C3_failure_severity.2.2.1 _ _ _ _ _ (by decide) (by decide)
      (by decide)).1
  · exact C3_failure_severity.2.2.2.1 _ _ _ _ (by decide) (by decide)
  · have happ := C3_failure_severity.2.2.2.2 []
      (fun _ _ => -1) (fun _ => 0) (fun _ => 0)
      [{ render_target_names := ["tex0"], srgb_write_enable := false,
         clear_render_targets := false }]
      fix_rt fix_rt fix_st
      { success := true,
        errors := "warning: 'ID3D11Device::CreateRenderTargetView' failed with error code 4294967295!\n" }
      [{ shader_resources := [], render_targets := List.replicate 8 none,
         render_target_resources := (List.replicate 8 none).set 0
           (some { resource := 3 }),
         viewport_width := 64, viewport_height := 64,
         clear_render_targets := false }]
      (by decide)
    exact (by decide : (visit_technique fix_rt fix_st []
        [{ render_target_names := ["tex0"], srgb_write_enable := false,
           clear_render_targets := false }]
        (fun _ _ => -1) (fun _ => 0) (fun _ => 0)).2.1.success =
      ({ success := true,
         errors := "warning: 'ID3D11Device::CreateRenderTargetView' failed with error code 4294967295!\n" } : CompilerState).success).trans happ

/-! ## C10: backbuffer default in render-target slot 0 -/

theorem getD_of_all_empty (names : List String) (h : ∀ n ∈ names, n = "")
    (k : Nat) : names.getD k "" = "" := by
  induction names generalizing k with
  | nil => cases k <;> rfl
  | cons x xs ih =>
    cases k with
    | zero => exact h x (by simp)
    | succ m => exact ih (fun n hn => h n (by simp [hn])) m

theorem bind_rts_skip (info : PassInfo) (hrRtv : Nat → Int) (ks : List Nat)
    (rt : Runtime) (st : CompilerState) (pass : Pass)
    (hks : ∀ k ∈ ks, info.render_target_names.getD k "" = "") :
    bind_rts info hrRtv ks rt st pass = (rt, st, some pass) := by
  induction ks with
  | nil => rfl
  | cons k ks ih =>
    have hk : info.render_target_names.getD k "" = "" := hks k (by simp)
    simp only [bind_rts]
    rw [hk]
    simp only [show (("" : String) == "") = true from by decide, if_true]
    exact ih (fun j hj => hks j (by simp [hj]))

theorem find_texture_update (rt : Runtime) (n : String) (f : TexData → TexData) :
    (rt.update_texture n f).find_texture n =
      (rt.find_texture n).map fun t => { t with impl := f t.impl } := by
  show (rt.textures.map fun t =>
      if t.unique_name == n then { t with impl := f t.impl } else t).find?
        (fun t => t.unique_name == n) =
    (rt.textures.find? (fun t => t.unique_name == n)).map
      fun t => { t with impl := f t.impl }
  induction rt.textures with
  | nil => rfl
  | cons t ts ih =>
    rw [List.map_cons]
    by_cases ht : (t.unique_name == n) = true
    · rw [if_pos ht, List.find?_cons, List.find?_cons]
      simp only [ht]
      rfl
    · rw [if_neg ht, List.find?_cons, List.find?_cons]
      simp only [Bool.not_eq_true] at ht
      simp only [ht]
      exact ih

theorem set0_replicate8_getD (x : Option View) :
    ((List.replicate 8 (none : Option View)).set 0 x).getD 0 none = x := by
  simp [List.replicate]

/-- One iteration of the render-target loop on slot 0, with a non-empty
name that resolves to a registered texture and a still-zero viewport:
the slot is rebound to the texture's (possibly just-created)
render-target view and the loop continues on the remaining slots. -/
theorem bind_rts_first (info : PassInfo) (hrRtv : Nat → Int) (ks : List Nat)
    (rt : Runtime) (st : CompilerState) (pass : Pass) (n : String) (tex : Texture)
    (hgd0 : info.render_target_names.getD 0 "" = n) (hn : n ≠ "")
    (htex : rt.find_texture n = some tex)
    (hvp : pass.viewport_width = 0) :
    ∃ rt2 st2 t2, rt2.find_texture n = some t2 ∧
      bind_rts info hrRtv (0 :: ks) rt st pass =
        bind_rts info hrRtv ks rt2 st2
          { pass with
            viewport_width := tex.width, viewport_height := tex.height
            render_targets := pass.render_targets.set 0
              (t2.impl.rtv (if info.srgb_write_enable then 1 else 0))
            render_target_resources := pass.render_target_resources.set 0
              (t2.impl.srv (if info.srgb_write_enable then 1 else 0)) } := by
  simp only [bind_rts]
  rw [hgd0, if_neg (by simpa using hn), htex]
  rw [hvp]
  simp only [bne_self_eq_false, Bool.false_and, Bool.false_eq_true, if_false]
  by_cases hc : (tex.impl.rtv (if info.srgb_write_enable then 1 else 0) == none) = true
  · rw [if_pos hc]
    by_cases hhr : hr_failed (hrRtv 0) = true
    · rw [if_pos hhr]
      dsimp only
      rw [htex]
      exact ⟨rt, _, tex, htex, rfl⟩
    · rw [if_neg hhr]
      have hup := find_texture_update rt n
        (fun d => d.setRtv (if info.srgb_write_enable then 1 else 0)
          (some { resource := d.texture.getD 0 }))
      rw [htex] at hup
      dsimp only
      rw [hup]
      exact ⟨_, st, _, hup, rfl⟩
  · rw [if_neg hc]
    dsimp only
    rw [htex]
    exact ⟨rt, st, tex, htex, rfl⟩

set_option maxHeartbeats 1000000 in
/-- C10: render-target slot 0 of every pass built by `visit_technique`'s
pass loop is first bound to the runtime's backbuffer RTV and backbuffer
SRV selected by `srgb_write_enable` — so a pass whose render-target name
list is entirely empty still renders to the backbuffer — and a named
render target in slot 0 overwrites this default with the named texture's
(possibly just-created) render-target view. -/
theorem C10_backbuffer_default :
    (∀ (rt : Runtime) (st : CompilerState) (tb : List (Option View))
       (info : PassInfo) (hrRtv : Nat → Int) (hrDss hrBlend : Int),
       (∀ n ∈ info.render_target_names, n = "") →
       ∃ st2 p, build_pass rt st tb info hrRtv hrDss hrBlend = (rt, st2, some p) ∧
         p.render_targets.getD 0 none =
           some (rt.backbuffer_rtv (if info.srgb_write_enable then 1 else 0)) ∧
         p.render_target_resources.getD 0 none =
           some (rt.backbuffer_srv (if info.srgb_write_enable then 1 else 0))) ∧
    (∀ (rt : Runtime) (st : CompilerState) (tb : List (Option View))
       (info : PassInfo) (hrRtv : Nat → Int) (hrDss hrBlend : Int)
       (n : String) (rest : List String) (tex : Texture),
       info.render_target_names = n :: rest → n ≠ "" → (∀ m ∈ rest, m = "") →
       rt.find_texture n = some tex →
       ∃ rt2 st2 p t2,
         build_pass rt st tb info hrRtv hrDss hrBlend = (rt2, st2, some p) ∧
         rt2.find_texture n = some t2 ∧
         p.render_targets.getD 0 none =
           t2.impl.rtv (if info.srgb_write_enable then 1 else 0)) := by
  constructor
  · intro rt st tb info hrRtv hrDss hrBlend hempty
    simp only [build_pass]
    rw [bind_rts_skip info hrRtv (List.range 8) rt st _
      (fun k _ => getD_of_all_empty _ hempty k)]
    refine ⟨_, _, rfl, ?_, ?_⟩ <;>
      · split <;> simp [set0_replicate8_getD]
  · intro rt st tb info hrRtv hrDss hrBlend n rest tex hnames hn hrest htex
    have hskip : ∀ k ∈ [1, 2, 3, 4, 5, 6, 7],
        info.render_target_names.getD k "" = "" := by
      intro k hk
      rw [hnames]
      have hk1 : 1 ≤ k := by
        simp at hk
        omega
      obtain ⟨m, rfl⟩ : ∃ m, k = m + 1 := ⟨k - 1, by omega⟩
      rw [List.getD_cons_succ]
      exact getD_of_all_empty rest hrest m
    have hgd0 : info.render_target_names.getD 0 "" = n := by
      rw [hnames]
      rfl
    obtain ⟨rt2, st2, t2, ht2, heq⟩ := bind_rts_first info hrRtv [1, 2, 3, 4, 5, 6, 7]
      rt st
      { shader_resources := tb
        render_targets := (List.replicate 8 (none : Option View)).set 0
          (some (rt.backbuffer_rtv (if info.srgb_write_enable then 1 else 0)))
        render_target_resources := (List.replicate 8 (none : Option View)).set 0
          (some (rt.backbuffer_srv (if info.srgb_write_enable then 1 else 0)))
        viewport_width := 0, viewport_height := 0
        clear_render_targets := info.clear_render_targets }
      n tex hgd0 hn htex rfl
    simp only [build_pass]
    rw [show List.range 8 = 0 :: [1, 2, 3, 4, 5, 6, 7] from by decide]
    rw [heq, bind_rts_skip info hrRtv _ _ _ _ hskip]
    refine ⟨rt2, _, _, t2, rfl, ht2, ?_⟩
    split <;>
      · dsimp only
        simp [List.replicate]
        split <;> rfl

/-- C10, witness: a pass with no named render targets keeps `fix_rt`'s
backbuffer views in slot 0, and a pass naming `"tex0"` in slot 0 rebinds
that slot to the texture's render-target view. -/
theorem C10_backbuffer_default_witness :
    (∃ st2 p, build_pass fix_rt fix_st []
        { render_target_names := [], srgb_write_enable := false,
          clear_render_targets := false } (fun _ => 0) 0 0 = (fix_rt, st2, some p) ∧
      p.render_targets.getD 0 none = some { resource := 1 } ∧
      p.render_target_resources.getD 0 none = some { resource := 2 }) ∧
    (∃ rt2 st2 p t2, build_pass fix_rt fix_st []
        { render_target_names := ["tex0"], srgb_write_enable := false,
          clear_render_targets := false } (fun _ => 0) 0 0 = (rt2, st2, some p) ∧
      rt2.find_texture "tex0" = some t2 ∧
      p.render_targets.getD 0 none = t2.impl.rtv 0) := by
  constructor
  · exact C10_backbuffer_default.1 fix_rt fix_st []
      { render_target_names := [], srgb_write_enable := false,
        clear_render_targets := false } (fun _ => 0) 0 0 (by simp)
  · exact C10_backbuffer_default.2 fix_rt fix_st []
      { render_target_names := ["tex0"], srgb_write_enable := false,
        clear_render_targets := false } (fun _ => 0) 0 0 "tex0" [] fix_tex rfl
      (by decide) (by simp) (by decide)

/-! ## C5: read/write hazards are nulled -/

theorem null_hazards_sound (srvs rts : List (Option View)) :
    ∀ v : View, some v ∈ null_hazards srvs rts →
      ∀ q : View, some q ∈ rts → q.resource ≠ v.resource := by
  intro v hv q hq
  unfold null_hazards at hv
  obtain ⟨x, hx, hmap⟩ := List.mem_map.1 hv
  cases x with
  | none => simp at hmap
  | some w =>
    dsimp only at hmap
    by_cases ha : (rts.any fun r => match r with
        | some x => x.resource == w.resource
        | none => false) = true
    · rw [if_pos ha] at hmap
      simp at hmap
    · rw [if_neg ha] at hmap
      obtain rfl : w = v := by simpa using hmap
      intro hqv
      apply ha
      rw [List.any_eq_true]
      exact ⟨some q, hq, by simpa using hqv⟩

theorem build_pass_hazard (rt : Runtime) (st : CompilerState)
    (tb : List (Option View)) (info : PassInfo) (hrRtv : Nat → Int)
    (hrDss hrBlend : Int) (rt2 : Runtime) (st2 : CompilerState) (p : Pass)
    (h : build_pass rt st tb info hrRtv hrDss hrBlend = (rt2, st2, some p)) :
    ∀ v : View, some v ∈ p.shader_resources →
      ∀ q : View, some q ∈ p.render_targets → q.resource ≠ v.resource := by
  simp only [build_pass] at h
  split at h
  · simp at h
  · rename_i rt1 st1 pass1 heq
    simp only [Prod.mk.injEq, Option.some.injEq] at h
    obtain ⟨h1, h2, h3⟩ := h
    subst h3
    exact null_hazards_sound _ _

theorem build_passes_hazard (tb : List (Option View)) (hrRtv : Nat → Nat → Int)
    (hrDss hrBlend : Nat → Int) (infos : List PassInfo) (i : Nat) (rt : Runtime)
    (st : CompilerState) (rt2 : Runtime) (st2 : CompilerState) (ps : List Pass)
    (h : build_passes tb hrRtv hrDss hrBlend infos i rt st = (rt2, st2, some ps)) :
    ∀ p ∈ ps, ∀ v : View, some v ∈ p.shader_resources →
      ∀ q : View, some q ∈ p.render_targets → q.resource ≠ v.resource := by
  induction infos generalizing i rt st rt2 st2 ps with
  | nil =>
    simp only [build_passes, Prod.mk.injEq, Option.some.injEq] at h
    obtain ⟨-, -, hps⟩ := h
    subst hps
    intro p hp
    simp at hp
  | cons info rest ih =>
    simp only [build_passes] at h
    split at h
    · simp at h
    · rename_i rt1 st1 pass1 hbp
      split at h
      · simp at h
      · rename_i rt3 st3 ps3 hrec
        simp only [Prod.mk.injEq, Option.some.injEq] at h
        obtain ⟨-, -, hps⟩ := h
        subst hps
        intro p hp
        rcases List.mem_cons.mp hp with rfl | hp3
        · exact build_pass_hazard _ _ _ _ _ _ _ _ _ _ hbp
        · exact ih _ _ _ _ _ _ hrec p hp3

/-- C5: for every pass of a technique that `visit_technique` finishes
building, every entry of the pass's shader-resource list whose underlying
resource equals the resource of any non-null render target of that same
pass has been reset to null — no remaining shader-resource view shares a
resource with a bound render target. -/
theorem C5_no_read_write_hazard (rt : Runtime) (st : CompilerState)
    (tb : List (Option View)) (infos : List PassInfo) (hrRtv : Nat → Nat → Int)
    (hrDss hrBlend : Nat → Int) (rt2 : Runtime) (st2 : CompilerState)
    (ps : List Pass)
    (h : visit_technique rt st tb infos hrRtv hrDss hrBlend = (rt2, st2, some ps)) :
    ∀ p ∈ ps, ∀ v : View, some v ∈ p.shader_resources →
      ∀ q : View, some q ∈ p.render_targets → q.resource ≠ v.resource :=
  build_passes_hazard tb hrRtv hrDss hrBlend infos 0 rt st rt2 st2 ps h

/-- C5, witness: in a concretely built technique whose pass keeps a
shader-resource view on resource 7 and renders to the backbuffer
(resource 1), the two resources indeed differ. -/
theorem C5_no_read_write_hazard_witness :
    ({ resource := 1 } : View).resource ≠ ({ resource := 7 } : View).resource :=
  C5_no_read_write_hazard fix_rt fix_st [some { resource := 7 }]
    [{ render_target_names := [], srgb_write_enable := false,
       clear_render_targets := false }]
    (fun _ _ => 0) (fun _ => 0) (fun _ => 0) fix_rt fix_st
    [{ shader_resources := [some { resource := 7 }]
       render_targets := [some { resource := 1 }, none, none, none, none, none, none, none]
       render_target_resources := [some { resource := 2 }, none, none, none, none, none, none, none]
       viewport_width := 16, viewport_height := 16
       clear_render_targets := false }]
    (by decide)
    { shader_resources := [some { resource := 7 }]
      render_targets := [some { resource := 1 }, none, none, none, none, none, none, none]
      render_target_resources := [some { resource := 2 }, none, none, none, none, none, none, none]
      viewport_width := 16, viewport_height := 16
      clear_render_targets := false }
    (by decide) { resource := 7 } (by decide) { resource := 1 } (by decide)

/-! ## C7: interning behaviour of `emit_constant` -/

theorem lanes16_eq_iff (a b : Constant) :
    lanes16_eq a b = true ↔ ∀ i < 16, a.lane i = b.lane i := by
  simp [lanes16_eq, List.all_eq_true, List.mem_range]

theorem lanes16_eq_refl (a : Constant) : lanes16_eq a a = true := by
  rw [lanes16_eq_iff]
  intro i _
  rfl

theorem zip_all_lanes_iff (l1 l2 : List Constant) (hlen : l1.length = l2.length) :
    ((l1.zip l2).all fun p => lanes16_eq p.1 p.2) = true ↔
      ∀ j < l1.length, ∀ i < 16,
        (l1.getD j zero_constant).lane i = (l2.getD j zero_constant).lane i := by
  induction l1 generalizing l2 with
  | nil =>
    cases l2 with
    | nil => simp
    | cons y ys => simp at hlen
  | cons x xs ih =>
    cases l2 with
    | nil => simp at hlen
    | cons y ys =>
      simp only [List.length_cons, Nat.add_right_cancel_iff] at hlen
      simp only [List.zip_cons_cons, List.all_cons, Bool.and_eq_true, ih ys hlen]
      constructor
      · rintro ⟨hxy, hrest⟩ j hj i hi
        cases j with
        | zero => exact (lanes16_eq_iff x y).mp hxy i hi
        | succ m =>
          simp only [List.getD_cons_succ]
          exact hrest m (by simpa using hj) i hi
      · intro hall
        constructor
        · rw [lanes16_eq_iff]
          intro i hi
          exact hall 0 (by simp) i hi
        · intro j hj i hi
          have := hall (j + 1) (by simpa using hj) i hi
          simpa using this

theorem constant_match_iff (t1 : Ty) (c1 : Constant) (t2 : Ty) (c2 : Constant) :
    constant_match t1 c1 t2 c2 = true ↔
      t1 = t2 ∧ (∀ i < 16, c1.lane i = c2.lane i) ∧
      c1.array_data.length = c2.array_data.length ∧
      (∀ j < c1.array_data.length, ∀ i < 16,
        (c1.array_data.getD j zero_constant).lane i =
          (c2.array_data.getD j zero_constant).lane i) := by
  unfold constant_match
  simp only [Bool.and_eq_true, beq_iff_eq]
  constructor
  · rintro ⟨⟨⟨hty, hl⟩, hlen⟩, hzip⟩
    exact ⟨hty, (lanes16_eq_iff _ _).mp hl, hlen,
      (zip_all_lanes_iff _ _ hlen).mp hzip⟩
  · rintro ⟨hty, hl, hlen, hel⟩
    exact ⟨⟨⟨hty, (lanes16_eq_iff _ _).mpr hl⟩, hlen⟩,
      (zip_all_lanes_iff _ _ hlen).mpr hel⟩

theorem constant_match_refl (t : Ty) (d : Constant) :
    constant_match t d t d = true :=
  (constant_match_iff t d t d).mpr
    ⟨rfl, fun _ _ => rfl, rfl, fun _ _ _ _ => rfl⟩

theorem constant_match_query_congr (e1 : Ty) (c1 : Constant) (t : Ty)
    (d d2 : Constant) (hdd : constant_match t d t d2 = true) :
    (constant_match e1 c1 t d = true ↔ constant_match e1 c1 t d2 = true) := by
  obtain ⟨-, hL, hlen, hel⟩ := (constant_match_iff t d t d2).mp hdd
  rw [constant_match_iff, constant_match_iff]
  constructor
  · rintro ⟨hty, hL1, hlen1, hel1⟩
    refine ⟨hty, fun i hi => (hL1 i hi).trans (hL i hi), hlen1.trans hlen, ?_⟩
    intro j hj i hi
    exact (hel1 j hj i hi).trans (hel j (hlen1 ▸ hj) i hi)
  · rintro ⟨hty, hL1, hlen1, hel1⟩
    refine ⟨hty, fun i hi => (hL1 i hi).trans (hL i hi).symm,
      hlen1.trans hlen.symm, ?_⟩
    intro j hj i hi
    exact (hel1 j hj i hi).trans (hel j (by omega) i hi).symm

theorem const_find_congr (entries : List (Ty × Constant × Nat)) (t : Ty)
    (d d2 : Constant) (hdd : constant_match t d t d2 = true) :
    const_find entries t d = const_find entries t d2 := by
  induction entries with
  | nil => rfl
  | cons e rest ih =>
    simp only [const_find]
    by_cases hm : constant_match e.1 e.2.1 t d = true
    · rw [if_pos hm, if_pos ((constant_match_query_congr e.1 e.2.1 t d d2 hdd).mp hm)]
    · rw [if_neg hm,
        if_neg (fun hc => hm ((constant_match_query_congr e.1 e.2.1 t d d2 hdd).mpr hc))]
      exact ih

theorem const_find_append (l1 l2 : List (Ty × Constant × Nat)) (t : Ty)
    (d : Constant) (h1 : const_find l1 t d = none) :
    const_find (l1 ++ l2) t d = const_find l2 t d := by
  induction l1 with
  | nil => rfl
  | cons e rest ih =>
    simp only [const_find] at h1 ⊢
    by_cases hm : constant_match e.1 e.2.1 t d = true
    · rw [if_pos hm] at h1
      exact absurd h1 (by simp)
    · rw [if_neg hm] at h1 ⊢
      exact ih h1

theorem crank_ne_of_lt {a b : Ty} (h : a.crank < b.crank) : a ≠ b := by
  intro he
  rw [he] at h
  omega

theorem crank_elem (t : Ty) (h : t.array_length ≠ 0) :
    Ty.crank { t with array_length := 0 } < t.crank := by
  simp only [Ty.crank]
  split_ifs <;> simp_all <;> omega

theorem crank_row (t : Ty) (h0 : t.array_length = 0) (h : 1 < t.cols) :
    Ty.crank { t with rows := t.cols, cols := 1 } < t.crank := by
  simp only [Ty.crank]
  split_ifs <;> simp_all <;> omega

theorem crank_scalar (t : Ty) (h0 : t.array_length = 0) (hc : t.cols = 1)
    (h : 1 < t.rows) : Ty.crank { t with rows := 1 } < t.crank := by
  simp only [Ty.crank]
  split_ifs <;> simp_all

/-- On a lookup hit, `emit_constant` returns the interned id and leaves
the state untouched (source lines 1662-1663). -/
theorem emit_constant_hit (st : EmitState) (t : Ty) (d : Constant) (r : Nat)
    (h : const_find st.entries t d = some r) : emit_constant st t d = (r, st) := by
  rw [emit_constant, h]

/-- The element loop on an empty list does nothing. -/
theorem emit_constant_list_nil (st : EmitState) (t : Ty) :
    emit_constant_list st t [] = ([], st) := by
  rw [emit_constant_list]

/-- The element loop emits the head and threads the state into the
tail. -/
theorem emit_constant_list_cons (st : EmitState) (t : Ty) (d : Constant)
    (rest : List Constant) :
    emit_constant_list st t (d :: rest) =
      ((emit_constant st t d).1 ::
         (emit_constant_list (emit_constant st t d).2 t rest).1,
       (emit_constant_list (emit_constant st t d).2 t rest).2) := by
  rw [emit_constant_list]

/-- A table whose types all have strictly smaller rank than `t` cannot
contain a match for `t` (the match predicate requires exact type
equality). -/
theorem const_find_none_of_crank (E0 : List (Ty × Constant × Nat)) (t : Ty)
    (d : Constant) (h : ∀ e ∈ E0, Ty.crank e.1 < t.crank) :
    const_find E0 t d = none := by
  induction E0 with
  | nil => rfl
  | cons e rest ih =>
    have hne : constant_match e.1 e.2.1 t d ≠ true := by
      intro hc
      have hty := ((constant_match_iff e.1 e.2.1 t d).mp hc).1
      have := h e (by simp)
      rw [hty] at this
      omega
    simp only [const_find, if_neg hne]
    exact ih fun x hx => h x (by simp [hx])

/-- Every `emit_constant` call satisfies `EmitDelta`: the lookup table
only grows, a hit changes nothing, and a miss appends strictly-smaller
ranked sub-constants followed by the call's own `(t, d, result)`
entry. -/
theorem emit_constant_delta :
    ∀ (st : EmitState) (t : Ty) (d : Constant), EmitDelta st t d := by
  apply emit_constant.induct EmitDelta EmitListDelta
  · -- lookup hit
    intro st t d r h
    refine ⟨[], ?_, Or.inl ⟨r, h, emit_constant_hit st t d r h⟩⟩
    rw [emit_constant_hit st t d r h]
    simp
  · -- array
    intro st t d hf ha elem_ty jobs ih
    obtain ⟨E, hE, hcr⟩ := ih
    have heq : emit_constant st t d =
        ((emit_constant_list st elem_ty jobs).2.next_id,
         { entries := (emit_constant_list st elem_ty jobs).2.entries ++
             [(t, d, (emit_constant_list st elem_ty jobs).2.next_id)],
           next_id := (emit_constant_list st elem_ty jobs).2.next_id + 1 }) := by
      rw [emit_constant, hf, dif_pos ha]
    have helem : Ty.crank elem_ty < t.crank := by
      have ha' : t.array_length ≠ 0 := by simpa [Ty.is_array] using ha
      exact crank_elem t ha'
    refine ⟨E ++ [(t, d, (emit_constant st t d).1)], ?_, Or.inr ⟨hf, E, rfl, ?_⟩⟩
    · rw [heq]
      dsimp only
      rw [hE]
      simp
    · intro e he
      exact lt_of_le_of_lt (hcr e he) helem
  · -- struct
    intro st t d hf ha hs
    have heq : emit_constant st t d =
        (st.next_id, { entries := st.entries ++ [(t, d, st.next_id)],
                       next_id := st.next_id + 1 }) := by
      rw [emit_constant, hf, dif_neg ha, if_pos hs]
    refine ⟨[(t, d, (emit_constant st t d).1)], ?_, Or.inr ⟨hf, [], by simp, by simp⟩⟩
    rw [heq]
  · -- matrix, one row
    intro st t d hf ha hs hm row_ty rows h1 ih
    obtain ⟨E, hE, hcr⟩ := ih
    have heq : emit_constant st t d =
        ((emit_constant_list st row_ty rows).1.headD 0,
         { (emit_constant_list st row_ty rows).2 with
           entries := (emit_constant_list st row_ty rows).2.entries ++
             [(t, d, (emit_constant_list st row_ty rows).1.headD 0)] }) := by
      rw [emit_constant, hf, dif_neg ha, if_neg (by simpa using hs), dif_pos hm,
        if_pos h1]
    have hrow : Ty.crank row_ty < t.crank := by
      have h0 : t.array_length = 0 := by simpa [Ty.is_array] using ha
      have hmm := (by simpa [Ty.is_matrix] using hm : 1 ≤ t.rows ∧ 1 < t.cols)
      exact crank_row t h0 hmm.2
    refine ⟨E ++ [(t, d, (emit_constant st t d).1)], ?_, Or.inr ⟨hf, E, rfl, ?_⟩⟩
    · rw [heq]
      dsimp only
      rw [hE]
      simp
    · intro e he
      exact lt_of_le_of_lt (hcr e he) hrow
  · -- matrix, several rows
    intro st t d hf ha hs hm row_ty rows h1 ih
    obtain ⟨E, hE, hcr⟩ := ih
    have heq : emit_constant st t d =
        ((emit_constant_list st row_ty rows).2.next_id,
         { entries := (emit_constant_list st row_ty rows).2.entries ++
             [(t, d, (emit_constant_list st row_ty rows).2.next_id)],
           next_id := (emit_constant_list st row_ty rows).2.next_id + 1 }) := by
      rw [emit_constant, hf, dif_neg ha, if_neg (by simpa using hs), dif_pos hm,
        if_neg h1]
    have hrow : Ty.crank row_ty < t.crank := by
      have h0 : t.array_length = 0 := by simpa [Ty.is_array] using ha
      have hmm := (by simpa [Ty.is_matrix] using hm : 1 ≤ t.rows ∧ 1 < t.cols)
      exact crank_row t h0 hmm.2
    refine ⟨E ++ [(t, d, (emit_constant st t d).1)], ?_, Or.inr ⟨hf, E, rfl, ?_⟩⟩
    · rw [heq]
      dsimp only
      rw [hE]
      simp
    · intro e he
      exact lt_of_le_of_lt (hcr e he) hrow
  · -- vector
    intro st t d hf ha hs hm hv scalar_ty scalars ih
    obtain ⟨E, hE, hcr⟩ := ih
    have heq : emit_constant st t d =
        ((emit_constant_list st scalar_ty scalars).2.next_id,
         { entries := (emit_constant_list st scalar_ty scalars).2.entries ++
             [(t, d, (emit_constant_list st scalar_ty scalars).2.next_id)],
           next_id := (emit_constant_list st scalar_ty scalars).2.next_id + 1 }) := by
      rw [emit_constant, hf, dif_neg ha, if_neg (by simpa using hs), dif_neg hm,
        dif_pos hv]
    have hsc : Ty.crank scalar_ty < t.crank := by
      have h0 : t.array_length = 0 := by simpa [Ty.is_array] using ha
      have hvv := (by simpa [Ty.is_vector] using hv : 1 < t.rows ∧ t.cols = 1)
      exact crank_scalar t h0 hvv.2 hvv.1
    refine ⟨E ++ [(t, d, (emit_constant st t d).1)], ?_, Or.inr ⟨hf, E, rfl, ?_⟩⟩
    · rw [heq]
      dsimp only
      rw [hE]
      simp
    · intro e he
      exact lt_of_le_of_lt (hcr e he) hsc
  · -- scalar / bool fallthrough
    intro st t d hf ha hs hm hv
    have heq : emit_constant st t d =
        (st.next_id, { entries := st.entries ++ [(t, d, st.next_id)],
                       next_id := st.next_id + 1 }) := by
      rw [emit_constant, hf, dif_neg ha, if_neg (by simpa using hs), dif_neg hm,
        dif_neg hv]
    refine ⟨[(t, d, (emit_constant st t d).1)], ?_, Or.inr ⟨hf, [], by simp, by simp⟩⟩
    rw [heq]
  · -- list: nil
    intro st t
    exact ⟨[], by rw [emit_constant_list_nil]; simp, by simp⟩
  · -- list: cons
    intro st t d rest r ih1 ih2
    obtain ⟨E1, hE1, hcase⟩ := ih1
    obtain ⟨E2, hE2, hcr2⟩ := ih2
    refine ⟨E1 ++ E2, ?_, ?_⟩
    · rw [emit_constant_list_cons]
      dsimp only
      rw [hE2, hE1]
      simp
    · intro e he
      rw [List.mem_append] at he
      rcases he with he | he
      · rcases hcase with ⟨r0, hfind, heq⟩ | ⟨hfind, E0, hE0, hcr0⟩
        · rw [heq] at hE1
          have : E1 = [] := by
            have := hE1
            simpa using this.symm
          rw [this] at he
          simp at he
        · rw [hE0] at he
          rw [List.mem_append] at he
          rcases he with he | he
          · exact le_of_lt (hcr0 e he)
          · rw [List.mem_singleton] at he
            rw [he]
      · exact hcr2 e he

/-- Stability of interning: after `emit_constant st t d`, a second call
with the same type and any data `d2` that the lookup predicate identifies
with `d` returns the same id and leaves the state unchanged — on a hit
because the original entry is found again, on a miss because the newly
pushed `(t, d, result)` entry is found (nothing pushed before it has type
`t`). -/
theorem emit_constant_match_stable (st : EmitState) (t : Ty) (d d2 : Constant)
    (hm : constant_match t d t d2 = true) :
    emit_constant (emit_constant st t d).2 t d2 =
      ((emit_constant st t d).1, (emit_constant st t d).2) := by
  obtain ⟨E, hE, hcase⟩ := emit_constant_delta st t d
  rcases hcase with ⟨r0, hfind, heq⟩ | ⟨hfind, E0, hE0, hcr⟩
  · have hfind2 : const_find st.entries t d2 = some r0 := by
      rw [← const_find_congr st.entries t d d2 hm]
      exact hfind
    rw [heq]
    exact emit_constant_hit st t d2 r0 hfind2
  · have hfind2 : const_find st.entries t d2 = none := by
      rw [← const_find_congr st.entries t d d2 hm]
      exact hfind
    have hfind' : const_find (emit_constant st t d).2.entries t d2 =
        some (emit_constant st t d).1 := by
      rw [hE, hE0, const_find_append st.entries _ t d2 hfind2,
        const_find_append E0 _ t d2 (const_find_none_of_crank E0 t d2 hcr)]
      simp [const_find, hm]
    exact emit_constant_hit _ t d2 _ hfind'

/-- C7, amended: for every type `t` and constant data `d`, calling the
SPIR-V backend's `emit_constant(t, d)` twice returns the same id (and the
second call leaves the lookup table unchanged); more generally two calls
against the same type are identified whenever the interning predicate
matches them: their sixteen 32-bit lanes are bit-identical, their
`array_data` sizes are equal, and each paired array element's sixteen
lanes are bit-identical — a comparison one level deep, not recursive. -/
theorem C7_constant_interning (st : EmitState) (t : Ty) (d d2 : Constant)
    (hm : constant_match t d t d2 = true) :
    (emit_constant (emit_constant st t d).2 t d).1 = (emit_constant st t d).1 ∧
    emit_constant (emit_constant st t d).2 t d2 =
      ((emit_constant st t d).1, (emit_constant st t d).2) :=
  ⟨congrArg Prod.fst (emit_constant_match_stable st t d d (constant_match_refl t d)),
   emit_constant_match_stable st t d d2 hm⟩

/-- C7, counterexample: constants are **not** identified by recursive
`array_data` matching — `c7_d1` and `c7_d2` agree on lanes and on their
single array element's lanes but differ recursively (the element's nested
`array_data` differs, so `rec_match` rejects them), yet `emit_constant`
returns the same id for both, because the lookup at source lines
1654-1661 compares array elements only one level deep. -/
theorem C7_counterexample :
    lanes16_eq c7_d1 c7_d2 = true ∧ rec_match c7_d1 c7_d2 = false ∧
    (emit_constant (emit_constant ⟨[], 1⟩ c7_arr_ty c7_d1).2 c7_arr_ty c7_d2).1 =
      (emit_constant ⟨[], 1⟩ c7_arr_ty c7_d1).1 :=
  ⟨by decide, by decide,
   congrArg Prod.fst
     (emit_constant_match_stable ⟨[], 1⟩ c7_arr_ty c7_d1 c7_d2 (by decide))⟩

/-- C7 witness: the amended theorem applied at the concrete state
`{entries := [], next_id := 1}` with the `float[1]` constant `c7_d1`. -/
theorem C7_constant_interning_witness :
    constant_match c7_arr_ty c7_d1 c7_arr_ty c7_d1 = true ∧
    ((emit_constant (emit_constant ⟨[], 1⟩ c7_arr_ty c7_d1).2 c7_arr_ty c7_d1).1 =
        (emit_constant ⟨[], 1⟩ c7_arr_ty c7_d1).1 ∧
      emit_constant (emit_constant ⟨[], 1⟩ c7_arr_ty c7_d1).2 c7_arr_ty c7_d1 =
        ((emit_constant ⟨[], 1⟩ c7_arr_ty c7_d1).1,
         (emit_constant ⟨[], 1⟩ c7_arr_ty c7_d1).2)) :=
  ⟨by decide, C7_constant_interning ⟨[], 1⟩ c7_arr_ty c7_d1 c7_d1 (by decide)⟩

end GW2RS
